import Mathlib

/-!
Verification of the UI-interaction layer of the jira-ui-auto repository.

The JavaScript page/component classes are shallowly embedded as computations
in a monad `M σ` over an abstract live-page state `σ`.  A `PageEnv σ` gives
the semantics of every Playwright primitive the code calls (click,
waitForSelector, locator().count(), …) as a state transition that either
yields a value or fails with a primitive error.  Every primitive invocation
is logged in a trace of `Act`s, and a `failed` flag records whether any
primitive invocation failed during execution, which lets us state that an
operation does or does not swallow internal errors.  Timeout arguments are
embedded symbolically (`TimeoutSpec.named` when the source references an
entry of the `TIMEOUTS` table, `TimeoutSpec.literal` when it writes a
numeric constant), so that the "no literal timeout" policy is statable.
-/

/-- Names of the entries of the `TIMEOUTS` table in `utils/constants.js`. -/
inductive TimeoutName where
  | PAGE_LOAD
  | DROPDOWN_OPEN
  | QUICK_ACTION
  | FILTER_CLEAR
deriving DecidableEq, Repr

/-- The `TIMEOUTS` table from `utils/constants.js` (milliseconds). -/
def TIMEOUTS : TimeoutName → Nat
  | .PAGE_LOAD => 30000
  | .DROPDOWN_OPEN => 10000
  | .QUICK_ACTION => 5000
  | .FILTER_CLEAR => 1000

/-- A timeout argument as written in the source: either a reference to a
named entry of the `TIMEOUTS` table, or a numeric literal. -/
inductive TimeoutSpec where
  | named (n : TimeoutName)
  | literal (ms : Nat)
deriving DecidableEq, Repr

/-- Numeric value of a timeout argument. -/
def TimeoutSpec.value : TimeoutSpec → Nat
  | .named n => TIMEOUTS n
  | .literal ms => ms

/-- Errors produced by the browser-automation primitives themselves
(timeouts, element failures).  These are distinct from the errors thrown
by repository code itself, so that a "validation error" can never
originate from a primitive. -/
inductive PErr where
  | timeout (loc : String)
  | failure (tag : String)
deriving DecidableEq, Repr

/-- JS `Array.prototype.join(sep)` on a list of strings. -/
def jsJoin (sep : String) : List String → String
  | [] => ""
  | [s] => s
  | s :: t :: rest => s ++ sep ++ jsJoin sep (t :: rest)

/-- Every error the repository code can observe: one constructor per
`throw new Error(...)` site in the embedded source, carrying the data
interpolated into the message, plus `prim` for failures coming from the
browser primitives. -/
inductive Err where
  | rowIndexOutOfBounds (index : Int) (totalRows : Nat)
  | noRowsInTable
  | unexpectedValue (value : String) (expected : List String)
  | statusArrayRequired
  | invalidStatusValues (invalid : List String) (allowed : List String)
  | statusCheckboxNotFound (status : String)
  | optionNotFound (optionText : String)
  | optionValueNotFound (optionValue : String)
  | targetNotSetWait
  | targetNotSet
  | navElementNotFound (loc : String)
  | navElementNotVisible (loc : String)
  | inputEmpty
  | checkboxNotFound (loc : String)
  | checkboxNotVisible (loc : String)
  | checkboxNotEnabled (loc : String)
  | missingEnvVars
  | storageStateNotSaved
  | prim (e : PErr)
deriving DecidableEq, Repr

/-- The exact message string each `throw new Error(...)` site builds in the
source (string interpolation rendered with `++` and `jsJoin ", "`). -/
def Err.render : Err → String
  | .rowIndexOutOfBounds i n =>
      "Row index " ++ toString i ++ " out of bounds. Total rows: " ++ toString n
  | .noRowsInTable => "No rows in table"
  | .unexpectedValue v expected =>
      "Unexpected value found: \"" ++ v ++ "\". Expected one of: " ++ jsJoin ", " expected
  | .statusArrayRequired => "At least one status must be provided as an array."
  | .invalidStatusValues invalid allowed =>
      "Invalid status values: " ++ jsJoin ", " invalid ++ ". Allowed: " ++ jsJoin ", " allowed
  | .statusCheckboxNotFound s =>
      "Status checkbox for \"" ++ s ++ "\" not found in the filter dropdown"
  | .optionNotFound t => "Option \"" ++ t ++ "\" not found in dropdown"
  | .optionValueNotFound v => "Option with value \"" ++ v ++ "\" not found in dropdown"
  | .targetNotSetWait => "Target element locator not set. Cannot wait for target."
  | .targetNotSet => "Target element locator not set."
  | .navElementNotFound loc => "Navigation element not found: " ++ loc
  | .navElementNotVisible loc => "Navigation element not visible: " ++ loc
  | .inputEmpty => "Input value cannot be empty"
  | .checkboxNotFound loc => "Checkbox not found with locator: " ++ loc
  | .checkboxNotVisible loc => "Checkbox is not visible: " ++ loc
  | .checkboxNotEnabled loc => "Checkbox is not enabled: " ++ loc
  | .missingEnvVars =>
      "Missing required environment variables: JIRA_URL, JIRA_USERNAME, JIRA_PASSWORD. Check your .env file."
  | .storageStateNotSaved =>
      "Failed to save authentication session (storageState.json). Check your Jira credentials and try again."
  | .prim (.timeout loc) => "Timeout waiting for " ++ loc
  | .prim (.failure tag) => "Primitive failure: " ++ tag

/-- `prefixOf sub l` : `sub` is a prefix of `l` (as character lists). -/
def prefixOf : List Char → List Char → Bool
  | [], _ => true
  | _ :: _, [] => false
  | a :: as, b :: bs => a = b && prefixOf as bs

/-- `occursIn sub l` : `sub` occurs contiguously inside `l`. -/
def occursIn (sub : List Char) : List Char → Bool
  | [] => prefixOf sub []
  | c :: rest => prefixOf sub (c :: rest) || occursIn sub rest

/-- `mentions msg sub` : the string `sub` occurs as a substring of `msg`
(also the embedding of JS `String.prototype.includes`). -/
def mentions (msg sub : String) : Bool := occursIn sub.data msg.data

/-- One logged invocation of a browser / filesystem / logging primitive. -/
inductive Act where
  | click (loc : String)
  | waitForSelector (loc : String) (t : TimeoutSpec)
  | press (key : String)
  | countQ (loc : String)
  | nthInnerText (loc : String) (idx : Int)
  | innerText (loc : String)
  | isVisibleQ (loc : String) (t : Option TimeoutSpec)
  | isEnabledQ (loc : String)
  | isCheckedQ (loc : String)
  | checkA (loc : String)
  | uncheckA (loc : String)
  | fillA (loc : String) (value : String)
  | inputValueQ (loc : String)
  | getAttributeQ (loc : String) (attr : String)
  | allTextContentsQ (loc : String)
  | typeA (loc : String) (value : String)
  | focusA (loc : String)
  | blurA (loc : String)
  | waitForA (loc : String) (t : Option TimeoutSpec)
  | warn (msg : String)
  | logA (msg : String)
  | launchBrowser
  | newPage
  | gotoA (url : String)
  | waitForURL (pat : String) (t : TimeoutSpec)
  | saveStorageState (path : String)
  | closeBrowser
  | existsSyncQ (path : String)
deriving DecidableEq, Repr

/-- Semantics of the browser-automation primitives over an abstract live-page
state `σ`: each primitive is a state transition that yields a value or a
primitive error.  The embedded code is verified for every such semantics,
with hypotheses pinning down the behavior a given claim depends on. -/
structure PageEnv (σ : Type) where
  click : String → σ → Except PErr Unit × σ
  waitForSelector : String → TimeoutSpec → σ → Except PErr Unit × σ
  press : String → σ → Except PErr Unit × σ
  countQ : String → σ → Except PErr Nat × σ
  nthInnerText : String → Int → σ → Except PErr String × σ
  innerText : String → σ → Except PErr String × σ
  isVisibleQ : String → Option TimeoutSpec → σ → Except PErr Bool × σ
  isEnabledQ : String → σ → Except PErr Bool × σ
  isCheckedQ : String → σ → Except PErr Bool × σ
  checkA : String → σ → Except PErr Unit × σ
  uncheckA : String → σ → Except PErr Unit × σ
  fillA : String → String → σ → Except PErr Unit × σ
  inputValueQ : String → σ → Except PErr String × σ
  getAttributeQ : String → String → σ → Except PErr (Option String) × σ
  allTextContentsQ : String → σ → Except PErr (List String) × σ
  typeA : String → String → σ → Except PErr Unit × σ
  focusA : String → σ → Except PErr Unit × σ
  blurA : String → σ → Except PErr Unit × σ
  waitForA : String → Option TimeoutSpec → σ → Except PErr Unit × σ
  getEnvVar : String → Option String
  launchBrowser : σ → Except PErr Unit × σ
  newPage : σ → Except PErr Unit × σ
  gotoA : String → σ → Except PErr Unit × σ
  waitForURL : String → TimeoutSpec → σ → Except PErr Unit × σ
  saveStorageState : String → σ → Except PErr Unit × σ
  closeBrowser : σ → Except PErr Unit × σ
  existsSyncQ : String → σ → Bool × σ

/-- Result of running an embedded operation: the value or thrown error, the
final page state, the trace of primitive invocations, and whether some
primitive invocation failed during execution. -/
structure Outcome (σ : Type) (α : Type) where
  res : Except Err α
  state : σ
  trace : List Act
  failed : Bool

/-- The effect monad of the embedding: reader (primitive semantics) + state
(live page) + exceptions + a trace of primitive invocations. -/
def M (σ : Type) (α : Type) : Type := PageEnv σ → σ → Outcome σ α

/-- Monadic return: no primitives invoked. -/
def M.pure {σ α} (a : α) : M σ α := fun _ s => ⟨.ok a, s, [], false⟩

/-- Monadic sequencing: on error the continuation does not run (JS `await`
of a rejected promise aborts the async function). -/
def M.bind {σ α β} (x : M σ α) (f : α → M σ β) : M σ β := fun env s =>
  match x env s with
  | ⟨.error e, s1, tr, fl⟩ => ⟨.error e, s1, tr, fl⟩
  | ⟨.ok a, s1, tr, fl⟩ =>
      let o := f a env s1
      ⟨o.res, o.state, tr ++ o.trace, fl || o.failed⟩

instance : Monad (M σ) where
  pure := M.pure
  bind := M.bind

@[simp]
theorem M.bind_eq {σ α β} (x : M σ α) (f : α → M σ β) : x >>= f = M.bind x f := rfl

@[simp]
theorem M.pure_eq {σ α} (a : α) : (Pure.pure a : M σ α) = M.pure a := rfl

/-- `throw new Error(...)` in repository code itself: not a primitive
failure, so the `failed` flag is not set. -/
def throwE {σ α} (e : Err) : M σ α := fun _ s => ⟨.error e, s, [], false⟩

/-- Lift a primitive: log its action, set the `failed` flag iff it fails. -/
def liftPrim {σ β} (act : Act) (f : PageEnv σ → σ → Except PErr β × σ) : M σ β :=
  fun env s =>
    match f env s with
    | (.ok b, s1) => ⟨.ok b, s1, [act], false⟩
    | (.error e, s1) => ⟨.error (.prim e), s1, [act], true⟩

/-- A JS try/catch around `x`: the error (if any) is reified into the
value; trace and `failed` flag are kept. -/
def attempt {σ α} (x : M σ α) : M σ (Except Err α) := fun env s =>
  match x env s with
  | ⟨.ok a, s1, tr, fl⟩ => ⟨.ok (.ok a), s1, tr, fl⟩
  | ⟨.error e, s1, tr, fl⟩ => ⟨.ok (.error e), s1, tr, fl⟩

/-- `page.click(loc)`. -/
def clickP {σ} (loc : String) : M σ Unit := liftPrim (.click loc) (fun env => env.click loc)

/-- `page.waitForSelector` on `loc` with a timeout option. -/
def waitForSelectorP {σ} (loc : String) (t : TimeoutSpec) : M σ Unit :=
  liftPrim (.waitForSelector loc t) (fun env => env.waitForSelector loc t)

/-- `page.keyboard.press(key)`. -/
def pressP {σ} (key : String) : M σ Unit := liftPrim (.press key) (fun env => env.press key)

/-- `page.locator(loc).count()`. -/
def countP {σ} (loc : String) : M σ Nat := liftPrim (.countQ loc) (fun env => env.countQ loc)

/-- `page.locator(loc).nth(i).innerText()`. -/
def nthInnerTextP {σ} (loc : String) (i : Int) : M σ String :=
  liftPrim (.nthInnerText loc i) (fun env => env.nthInnerText loc i)

/-- `page.locator(loc).innerText()`. -/
def innerTextP {σ} (loc : String) : M σ String :=
  liftPrim (.innerText loc) (fun env => env.innerText loc)

/-- `page.locator(loc).isVisible()` (optionally with a timeout option). -/
def isVisibleP {σ} (loc : String) (t : Option TimeoutSpec) : M σ Bool :=
  liftPrim (.isVisibleQ loc t) (fun env => env.isVisibleQ loc t)

/-- `page.locator(loc).isEnabled()`. -/
def isEnabledP {σ} (loc : String) : M σ Bool :=
  liftPrim (.isEnabledQ loc) (fun env => env.isEnabledQ loc)

/-- `page.locator(loc).isChecked()`. -/
def isCheckedP {σ} (loc : String) : M σ Bool :=
  liftPrim (.isCheckedQ loc) (fun env => env.isCheckedQ loc)

/-- `locator.check()`. -/
def checkP {σ} (loc : String) : M σ Unit := liftPrim (.checkA loc) (fun env => env.checkA loc)

/-- `locator.uncheck()`. -/
def uncheckP {σ} (loc : String) : M σ Unit :=
  liftPrim (.uncheckA loc) (fun env => env.uncheckA loc)

/-- `page.fill(loc, value)`. -/
def fillP {σ} (loc value : String) : M σ Unit :=
  liftPrim (.fillA loc value) (fun env => env.fillA loc value)

/-- `locator.inputValue()`. -/
def inputValueP {σ} (loc : String) : M σ String :=
  liftPrim (.inputValueQ loc) (fun env => env.inputValueQ loc)

/-- `locator.getAttribute(attr)` (may be `null`). -/
def getAttributeP {σ} (loc attr : String) : M σ (Option String) :=
  liftPrim (.getAttributeQ loc attr) (fun env => env.getAttributeQ loc attr)

/-- `locator.allTextContents()`. -/
def allTextContentsP {σ} (loc : String) : M σ (List String) :=
  liftPrim (.allTextContentsQ loc) (fun env => env.allTextContentsQ loc)

/-- `locator.type(value)`. -/
def typeP {σ} (loc value : String) : M σ Unit :=
  liftPrim (.typeA loc value) (fun env => env.typeA loc value)

/-- `locator.focus()`. -/
def focusP {σ} (loc : String) : M σ Unit := liftPrim (.focusA loc) (fun env => env.focusA loc)

/-- `locator.blur()`. -/
def blurP {σ} (loc : String) : M σ Unit := liftPrim (.blurA loc) (fun env => env.blurA loc)

/-- `locator.waitFor` with state "visible" (no explicit timeout in source
when `t = none`). -/
def waitForP {σ} (loc : String) (t : Option TimeoutSpec) : M σ Unit :=
  liftPrim (.waitForA loc t) (fun env => env.waitForA loc t)

/-- `console.warn(msg)`: logged, never fails. -/
def warnP {σ} (msg : String) : M σ Unit := fun _ s => ⟨.ok (), s, [.warn msg], false⟩

/-- `console.log(msg)`: logged, never fails. -/
def logP {σ} (msg : String) : M σ Unit := fun _ s => ⟨.ok (), s, [.logA msg], false⟩

/-- `process.env[key]` : reading the environment, not a UI interaction. -/
def getEnvP {σ} (key : String) : M σ (Option String) :=
  fun env s => ⟨.ok (env.getEnvVar key), s, [], false⟩

/-- `chromium.launch()`. -/
def launchBrowserP {σ} : M σ Unit := liftPrim .launchBrowser (fun env => env.launchBrowser)

/-- `browser.newPage()`. -/
def newPageP {σ} : M σ Unit := liftPrim .newPage (fun env => env.newPage)

/-- `page.goto(url)`. -/
def gotoP {σ} (url : String) : M σ Unit := liftPrim (.gotoA url) (fun env => env.gotoA url)

/-- `page.waitForURL` on `pat` with a timeout option. -/
def waitForURLP {σ} (pat : String) (t : TimeoutSpec) : M σ Unit :=
  liftPrim (.waitForURL pat t) (fun env => env.waitForURL pat t)

/-- `page.context().storageState` writing to `path`. -/
def saveStorageStateP {σ} (path : String) : M σ Unit :=
  liftPrim (.saveStorageState path) (fun env => env.saveStorageState path)

/-- `browser.close()`. -/
def closeBrowserP {σ} : M σ Unit := liftPrim .closeBrowser (fun env => env.closeBrowser)

/-- `fs.existsSync(path)`: never fails. -/
def existsSyncP {σ} (path : String) : M σ Bool := fun env s =>
  let r := env.existsSyncQ path s
  ⟨.ok r.1, r.2, [.existsSyncQ path], false⟩

/-- `m` propagates primitive failures: whenever some primitive invocation
failed during execution, the operation itself ends in an error. -/
def Propagates {σ α} (m : M σ α) : Prop :=
  ∀ env s, (m env s).failed = true → ∃ e, (m env s).res = .error e

/-- Every action in every possible trace of `m` satisfies `P`. -/
def TraceAll {σ α} (P : Act → Bool) (m : M σ α) : Prop :=
  ∀ env s, ∀ a ∈ (m env s).trace, P a = true

theorem propagates_pure {σ α} (a : α) : Propagates (M.pure (σ := σ) a) := by
  intro env s h; simp [M.pure] at h

theorem propagates_throwE {σ α} (e : Err) : Propagates (throwE (σ := σ) (α := α) e) := by
  intro env s _; exact ⟨e, rfl⟩

theorem propagates_liftPrim {σ β} (act : Act) (f : PageEnv σ → σ → Except PErr β × σ) :
    Propagates (liftPrim act f) := by
  intro env s h
  unfold liftPrim at h ⊢
  revert h
  rcases f env s with ⟨r, s1⟩
  cases r with
  | ok b => intro h; simp at h
  | error e => intro _; exact ⟨.prim e, rfl⟩

theorem propagates_bind {σ α β} {x : M σ α} {f : α → M σ β}
    (hx : Propagates x) (hf : ∀ a, Propagates (f a)) : Propagates (x >>= f) := by
  intro env s h
  simp only [M.bind_eq, M.bind] at h ⊢
  have hx1 := hx env s
  revert hx1 h
  rcases x env s with ⟨r, s1, tr, fl⟩
  cases r with
  | error e => intro _ _; exact ⟨e, rfl⟩
  | ok a =>
      intro h hx1
      have h2 : (fl || (f a env s1).failed) = true := h
      have hfl : fl = false := by
        cases hflc : fl
        · rfl
        · rcases hx1 hflc with ⟨e, he⟩
          simp at he
      rw [hfl, Bool.false_or] at h2
      rcases hf a env s1 h2 with ⟨e, he⟩
      exact ⟨e, he⟩

theorem propagates_warnP {σ} (msg : String) : Propagates (warnP (σ := σ) msg) := by
  intro env s h; simp [warnP] at h

theorem propagates_logP {σ} (msg : String) : Propagates (logP (σ := σ) msg) := by
  intro env s h; simp [logP] at h

theorem propagates_getEnvP {σ} (k : String) : Propagates (getEnvP (σ := σ) k) := by
  intro env s h; simp [getEnvP] at h

theorem propagates_existsSyncP {σ} (p : String) : Propagates (existsSyncP (σ := σ) p) := by
  intro env s h; simp [existsSyncP] at h

theorem propagates_ite {σ α} (c : Prop) [Decidable c] {x y : M σ α}
    (hx : Propagates x) (hy : Propagates y) : Propagates (if c then x else y) := by
  by_cases h : c <;> simp [h, hx, hy]

theorem traceAll_pure {σ α} (P : Act → Bool) (a : α) : TraceAll P (M.pure (σ := σ) a) := by
  intro env s a' ha; simp [M.pure] at ha

theorem traceAll_throwE {σ α} (P : Act → Bool) (e : Err) :
    TraceAll P (throwE (σ := σ) (α := α) e) := by
  intro env s a' ha; simp [throwE] at ha

theorem traceAll_liftPrim {σ β} {P : Act → Bool} (act : Act)
    (f : PageEnv σ → σ → Except PErr β × σ) (hP : P act = true) :
    TraceAll P (liftPrim act f) := by
  intro env s a' ha
  unfold liftPrim at ha
  revert ha
  rcases f env s with ⟨r, s1⟩
  cases r <;> intro ha <;>
    · have ha2 : a' ∈ [act] := ha
      simp at ha2
      rw [ha2]; exact hP

theorem traceAll_bind {σ α β} {P : Act → Bool} {x : M σ α} {f : α → M σ β}
    (hx : TraceAll P x) (hf : ∀ a, TraceAll P (f a)) : TraceAll P (x >>= f) := by
  intro env s a' ha
  simp only [M.bind_eq, M.bind] at ha
  have hx1 := hx env s a'
  revert hx1 ha
  rcases x env s with ⟨r, s1, tr, fl⟩
  cases r with
  | error e => intro ha hx1; exact hx1 ha
  | ok a =>
      intro ha hx1
      have ha2 : a' ∈ tr ++ (f a env s1).trace := ha
      rcases List.mem_append.mp ha2 with h1 | h1
      · exact hx1 h1
      · exact hf a env s1 a' h1

theorem traceAll_attempt {σ α} {P : Act → Bool} {x : M σ α} (hx : TraceAll P x) :
    TraceAll P (attempt x) := by
  intro env s a' ha
  unfold attempt at ha
  have hx1 := hx env s a'
  revert hx1 ha
  rcases x env s with ⟨r, s1, tr, fl⟩
  cases r <;> intro ha hx1 <;> exact hx1 ha

theorem traceAll_warnP {σ} {P : Act → Bool} (msg : String) (h : P (.warn msg) = true) :
    TraceAll P (warnP (σ := σ) msg) := by
  intro env s a' ha; simp [warnP] at ha; rw [ha]; exact h

theorem traceAll_logP {σ} {P : Act → Bool} (msg : String) (h : P (.logA msg) = true) :
    TraceAll P (logP (σ := σ) msg) := by
  intro env s a' ha; simp [logP] at ha; rw [ha]; exact h

theorem traceAll_getEnvP {σ} {P : Act → Bool} (k : String) :
    TraceAll P (getEnvP (σ := σ) k) := by
  intro env s a' ha; simp [getEnvP] at ha

theorem traceAll_ite {σ α} {P : Act → Bool} (c : Prop) [Decidable c] {x y : M σ α}
    (hx : TraceAll P x) (hy : TraceAll P y) : TraceAll P (if c then x else y) := by
  by_cases h : c <;> simp [h, hx, hy]

/-- `DropdownComponent` (components/DropdownComponent.js): wraps a dropdown
trigger locator and an options-container locator (constructor default
`[role="listbox"]`). -/
structure DropdownComponent where
  dropdownLocator : String
  optionsLocator : String := "[role=\"listbox\"]"

/-- `DropdownComponent.open`: click the trigger, then wait for the options
container with the named `DROPDOWN_OPEN` timeout. -/
def DropdownComponent.open {σ} (d : DropdownComponent) : M σ Unit := do
  clickP d.dropdownLocator
  waitForSelectorP d.optionsLocator (.named .DROPDOWN_OPEN)

/-- `DropdownComponent.close`: press Escape, unconditionally. -/
def DropdownComponent.close {σ} (d : DropdownComponent) : M σ Unit := do
  let _ := d
  pressP "Escape"

/-- `DropdownComponent.selectOption(optionText)`. -/
def DropdownComponent.selectOption {σ} (d : DropdownComponent) (optionText : String) :
    M σ Unit := do
  d.open
  let count ← countP ("text=" ++ optionText)
  if count = 0 then throwE (.optionNotFound optionText)
  else clickP ("text=" ++ optionText)

/-- `DropdownComponent.selectOptionByValue(optionValue)`. -/
def DropdownComponent.selectOptionByValue {σ} (d : DropdownComponent) (optionValue : String) :
    M σ Unit := do
  d.open
  let count ← countP ("[value=\"" ++ optionValue ++ "\"]")
  if count = 0 then throwE (.optionValueNotFound optionValue)
  else clickP ("[value=\"" ++ optionValue ++ "\"]")

/-- `DropdownComponent.optionExists(optionText)`. -/
def DropdownComponent.optionExists {σ} (d : DropdownComponent) (optionText : String) :
    M σ Bool := do
  d.open
  let count ← countP ("text=" ++ optionText)
  let exist := decide (count > 0)
  d.close
  M.pure exist

/-- `DropdownComponent.getAllOptions`. -/
def DropdownComponent.getAllOptions {σ} (d : DropdownComponent) : M σ (List String) := do
  d.open
  let options ← allTextContentsP (d.optionsLocator ++ " >> text=*")
  d.close
  M.pure options

/-- `DropdownComponent.getOptionCount`. -/
def DropdownComponent.getOptionCount {σ} (d : DropdownComponent) : M σ Nat := do
  d.open
  let count ← countP d.optionsLocator
  d.close
  M.pure count

/-- `DropdownComponent.isOpen`: try/catch around a `waitForSelector` with the
literal 1000 ms timeout; returns `false` instead of propagating the error. -/
def DropdownComponent.isOpen {σ} (d : DropdownComponent) : M σ Bool := do
  let r ← attempt (waitForSelectorP d.optionsLocator (.literal 1000))
  match r with
  | .ok _ => M.pure true
  | .error _ => M.pure false

/-- `TableComponent` (components/TableComponent.js): wraps a cell locator. -/
structure TableComponent where
  cellLocator : String

/-- `TableComponent.getRowCount`. -/
def TableComponent.getRowCount {σ} (t : TableComponent) : M σ Nat :=
  countP t.cellLocator

/-- `TableComponent.getRowText(index)`: bounds check `index >= count`, then
`locator.nth(index).innerText()`.  The index is a JS number, embedded as an
integer. -/
def TableComponent.getRowText {σ} (t : TableComponent) (index : Int) : M σ String := do
  let count ← t.getRowCount
  if (count : Int) ≤ index then throwE (.rowIndexOutOfBounds index count)
  else nthInnerTextP t.cellLocator index

/-- Loop body of `TableComponent.getAllRowTexts`: `remaining` iterations
starting at row `i`. -/
def TableComponent.getAllRowTextsLoop {σ} (t : TableComponent) :
    Nat → Nat → M σ (List String)
  | 0, _ => M.pure []
  | n + 1, i => do
      let x ← t.getRowText i
      let rest ← t.getAllRowTextsLoop n (i + 1)
      M.pure (x :: rest)

/-- `TableComponent.getAllRowTexts`. -/
def TableComponent.getAllRowTexts {σ} (t : TableComponent) : M σ (List String) := do
  let count ← t.getRowCount
  t.getAllRowTextsLoop count 0

/-- Loop body of `TableComponent.validateAllCellsContainExpectedValues`. -/
def TableComponent.validateLoop {σ} (t : TableComponent) (expectedValues : List String) :
    Nat → Nat → M σ Unit
  | 0, _ => M.pure ()
  | n + 1, i => do
      let cellText ← t.getRowText i
      if expectedValues.contains cellText then t.validateLoop expectedValues n (i + 1)
      else throwE (.unexpectedValue cellText expectedValues)

/-- `TableComponent.validateAllCellsContainExpectedValues(expectedValues)`:
zero rows warns and returns; otherwise membership-tests each row in order
and throws on the first non-member. -/
def TableComponent.validateAllCellsContainExpectedValues {σ} (t : TableComponent)
    (expectedValues : List String) : M σ Unit := do
  let count ← t.getRowCount
  if count = 0 then warnP "No rows found in table"
  else t.validateLoop expectedValues count 0

/-- `TableComponent.isEmpty`. -/
def TableComponent.isEmpty {σ} (t : TableComponent) : M σ Bool := do
  let count ← t.getRowCount
  M.pure (decide (count = 0))

/-- JS `Array.prototype.indexOf`: index of the first occurrence, `-1` if
absent. -/
def jsIndexOf (l : List String) (x : String) : Int :=
  match l.indexOf? x with
  | some i => (i : Int)
  | none => -1

/-- `TableComponent.findRowByText(searchText)`. -/
def TableComponent.findRowByText {σ} (t : TableComponent) (searchText : String) : M σ Int := do
  let texts ← t.getAllRowTexts
  M.pure (jsIndexOf texts searchText)

/-- `TableComponent.valueExists(searchValue)`. -/
def TableComponent.valueExists {σ} (t : TableComponent) (searchValue : String) : M σ Bool := do
  let texts ← t.getAllRowTexts
  M.pure (texts.contains searchValue)

/-- `TableComponent.getFirstRowText`. -/
def TableComponent.getFirstRowText {σ} (t : TableComponent) : M σ String := do
  let count ← t.getRowCount
  if count = 0 then throwE .noRowsInTable
  else t.getRowText 0

/-- `TableComponent.getLastRowText`. -/
def TableComponent.getLastRowText {σ} (t : TableComponent) : M σ String := do
  let count ← t.getRowCount
  if count = 0 then throwE .noRowsInTable
  else t.getRowText ((count : Int) - 1)

/-- `NavigationComponent` (components/NavigationComponent.js): wraps a
trigger locator and an optional target locator (constructor default
`null`). -/
structure NavigationComponent where
  elementLocator : String
  targetElementLocator : Option String := none

/-- `NavigationComponent.click`. -/
def NavigationComponent.click {σ} (n : NavigationComponent) : M σ Unit :=
  clickP n.elementLocator

/-- `NavigationComponent.clickAndWaitForTarget`: requires a configured
target; waits with the named `QUICK_ACTION` timeout. -/
def NavigationComponent.clickAndWaitForTarget {σ} (n : NavigationComponent) : M σ Unit :=
  match n.targetElementLocator with
  | none => throwE .targetNotSetWait
  | some target => do
      n.click
      waitForSelectorP target (.named .QUICK_ACTION)

/-- `NavigationComponent.exists`. -/
def NavigationComponent.exists {σ} (n : NavigationComponent) : M σ Bool := do
  let count ← countP n.elementLocator
  M.pure (decide (count > 0))

/-- `NavigationComponent.isVisible`. -/
def NavigationComponent.isVisible {σ} (n : NavigationComponent) : M σ Bool :=
  isVisibleP n.elementLocator none

/-- `NavigationComponent.isEnabled`. -/
def NavigationComponent.isEnabled {σ} (n : NavigationComponent) : M σ Bool :=
  isEnabledP n.elementLocator

/-- `NavigationComponent.getText`. -/
def NavigationComponent.getText {σ} (n : NavigationComponent) : M σ String :=
  innerTextP n.elementLocator

/-- `NavigationComponent.isTargetVisible`: requires a configured target;
try/catch around `isVisible` with the literal 1000 ms timeout, returning `false` instead
of propagating the error. -/
def NavigationComponent.isTargetVisible {σ} (n : NavigationComponent) : M σ Bool :=
  match n.targetElementLocator with
  | none => throwE .targetNotSet
  | some target => do
      let r ← attempt (isVisibleP target (some (.literal 1000)))
      match r with
      | .ok b => M.pure b
      | .error _ => M.pure false

/-- `NavigationComponent.waitForClickable`: `locator.waitFor` with state
"visible", and no explicit timeout. -/
def NavigationComponent.waitForClickable {σ} (n : NavigationComponent) : M σ Unit :=
  waitForP n.elementLocator none

/-- `NavigationComponent.clickWithValidation`. -/
def NavigationComponent.clickWithValidation {σ} (n : NavigationComponent) : M σ Unit := do
  let ex ← n.exists
  if !ex then throwE (.navElementNotFound n.elementLocator)
  else do
    let vis ← n.isVisible
    if !vis then throwE (.navElementNotVisible n.elementLocator)
    else n.click

/-- `NavigationComponent.getClass`. -/
def NavigationComponent.getClass {σ} (n : NavigationComponent) : M σ (Option String) :=
  getAttributeP n.elementLocator "class"

/-- `NavigationComponent.hasClass(className)`: JS `classes &&
classes.includes(className)` (a `null` attribute is falsy). -/
def NavigationComponent.hasClass {σ} (n : NavigationComponent) (className : String) :
    M σ Bool := do
  let classes ← n.getClass
  M.pure (match classes with
    | some c => mentions c className
    | none => false)

/-- `NavigationComponent.isActive` with default activeClass "active". -/
def NavigationComponent.isActive {σ} (n : NavigationComponent)
    (activeClass : String := "active") : M σ Bool :=
  n.hasClass activeClass

/-- `CheckboxComponent` (components/CheckboxComponent.js). -/
structure CheckboxComponent where
  checkboxLocator : String

/-- `CheckboxComponent.check`. -/
def CheckboxComponent.check {σ} (c : CheckboxComponent) : M σ Unit :=
  checkP c.checkboxLocator

/-- `CheckboxComponent.uncheck`. -/
def CheckboxComponent.uncheck {σ} (c : CheckboxComponent) : M σ Unit :=
  uncheckP c.checkboxLocator

/-- `CheckboxComponent.isChecked`. -/
def CheckboxComponent.isChecked {σ} (c : CheckboxComponent) : M σ Bool :=
  isCheckedP c.checkboxLocator

/-- `CheckboxComponent.toggle`: read state, then flip it. -/
def CheckboxComponent.toggle {σ} (c : CheckboxComponent) : M σ Unit := do
  let ch ← c.isChecked
  if ch then c.uncheck else c.check

/-- `CheckboxComponent.exists`. -/
def CheckboxComponent.exists {σ} (c : CheckboxComponent) : M σ Bool := do
  let count ← countP c.checkboxLocator
  M.pure (decide (count > 0))

/-- `CheckboxComponent.isVisible`. -/
def CheckboxComponent.isVisible {σ} (c : CheckboxComponent) : M σ Bool :=
  isVisibleP c.checkboxLocator none

/-- `CheckboxComponent.isEnabled`. -/
def CheckboxComponent.isEnabled {σ} (c : CheckboxComponent) : M σ Bool :=
  isEnabledP c.checkboxLocator

/-- `CheckboxComponent.getValue`. -/
def CheckboxComponent.getValue {σ} (c : CheckboxComponent) : M σ (Option String) :=
  getAttributeP c.checkboxLocator "value"

/-- `CheckboxComponent.getName`. -/
def CheckboxComponent.getName {σ} (c : CheckboxComponent) : M σ (Option String) :=
  getAttributeP c.checkboxLocator "name"

/-- `CheckboxComponent.validateBeforeInteraction`: existence, visibility,
enabled, in that order, failing fast with a distinct error each. -/
def CheckboxComponent.validateBeforeInteraction {σ} (c : CheckboxComponent) : M σ Unit := do
  let ex ← c.exists
  if !ex then throwE (.checkboxNotFound c.checkboxLocator)
  else do
    let vis ← c.isVisible
    if !vis then throwE (.checkboxNotVisible c.checkboxLocator)
    else do
      let en ← c.isEnabled
      if !en then throwE (.checkboxNotEnabled c.checkboxLocator)
      else M.pure ()

/-- `CheckboxComponent.checkWithValidation`. -/
def CheckboxComponent.checkWithValidation {σ} (c : CheckboxComponent) : M σ Unit := do
  c.validateBeforeInteraction
  c.check

/-- `CheckboxComponent.uncheckWithValidation`. -/
def CheckboxComponent.uncheckWithValidation {σ} (c : CheckboxComponent) : M σ Unit := do
  c.validateBeforeInteraction
  c.uncheck

/-- `FormInputComponent` (components/FormInputComponent.js). -/
structure FormInputComponent where
  inputLocator : String

/-- `FormInputComponent.fill(value)`: rejects a falsy value (for a string
argument, the empty string) before touching the page. -/
def FormInputComponent.fill {σ} (f : FormInputComponent) (value : String) : M σ Unit :=
  if value = "" then throwE .inputEmpty
  else fillP f.inputLocator value

/-- `FormInputComponent.getValue`. -/
def FormInputComponent.getValue {σ} (f : FormInputComponent) : M σ String :=
  inputValueP f.inputLocator

/-- `FormInputComponent.clear`: `page.fill` with the empty string directly, bypassing
the falsy-value guard of `fill`. -/
def FormInputComponent.clear {σ} (f : FormInputComponent) : M σ Unit :=
  fillP f.inputLocator ""

/-- `FormInputComponent.clearAndFill(value)`: `clear()` then `fill(value)`. -/
def FormInputComponent.clearAndFill {σ} (f : FormInputComponent) (value : String) :
    M σ Unit := do
  f.clear
  f.fill value

/-- `FormInputComponent.exists`. -/
def FormInputComponent.exists {σ} (f : FormInputComponent) : M σ Bool := do
  let count ← countP f.inputLocator
  M.pure (decide (count > 0))

/-- `FormInputComponent.isVisible`. -/
def FormInputComponent.isVisible {σ} (f : FormInputComponent) : M σ Bool :=
  isVisibleP f.inputLocator none

/-- `FormInputComponent.isEnabled`. -/
def FormInputComponent.isEnabled {σ} (f : FormInputComponent) : M σ Bool :=
  isEnabledP f.inputLocator

/-- `FormInputComponent.getPlaceholder`. -/
def FormInputComponent.getPlaceholder {σ} (f : FormInputComponent) : M σ (Option String) :=
  getAttributeP f.inputLocator "placeholder"

/-- `FormInputComponent.type(value)`. -/
def FormInputComponent.typeText {σ} (f : FormInputComponent) (value : String) : M σ Unit :=
  typeP f.inputLocator value

/-- `FormInputComponent.focus`. -/
def FormInputComponent.focus {σ} (f : FormInputComponent) : M σ Unit :=
  focusP f.inputLocator

/-- `FormInputComponent.blur`. -/
def FormInputComponent.blur {σ} (f : FormInputComponent) : M σ Unit :=
  blurP f.inputLocator

/-- `TextInputComponent` (components/TextInputComponent.js): read-only input
wrapper. -/
structure TextInputComponent where
  inputLocator : String

/-- `TextInputComponent.getValue`. -/
def TextInputComponent.getValue {σ} (t : TextInputComponent) : M σ String :=
  inputValueP t.inputLocator

/-- `TextInputComponent.containsValue(expectedValue)`. -/
def TextInputComponent.containsValue {σ} (t : TextInputComponent) (expectedValue : String) :
    M σ Bool := do
  let value ← t.getValue
  M.pure (mentions value expectedValue)

/-- `TextInputComponent.equalsValue(expectedValue)`. -/
def TextInputComponent.equalsValue {σ} (t : TextInputComponent) (expectedValue : String) :
    M σ Bool := do
  let value ← t.getValue
  M.pure (value == expectedValue)

/-- `TextInputComponent.getTextContent`. -/
def TextInputComponent.getTextContent {σ} (t : TextInputComponent) : M σ String :=
  innerTextP t.inputLocator

/-- `TextInputComponent.isEmpty`. -/
def TextInputComponent.isEmpty {σ} (t : TextInputComponent) : M σ Bool := do
  let value ← t.getValue
  M.pure (decide (value.trim.length = 0))

/-- `TextInputComponent.getValueLength`. -/
def TextInputComponent.getValueLength {σ} (t : TextInputComponent) : M σ Nat := do
  let value ← t.getValue
  M.pure value.length

/-- `TextInputComponent.startsWithValue(p)`. -/
def TextInputComponent.startsWithValue {σ} (t : TextInputComponent) (p : String) :
    M σ Bool := do
  let value ← t.getValue
  M.pure (value.startsWith p)

/-- `TextInputComponent.endsWithValue(suffix)`. -/
def TextInputComponent.endsWithValue {σ} (t : TextInputComponent) (suffix : String) :
    M σ Bool := do
  let value ← t.getValue
  M.pure (value.endsWith suffix)

/-- `TextInputComponent.getType`. -/
def TextInputComponent.getType {σ} (t : TextInputComponent) : M σ (Option String) :=
  getAttributeP t.inputLocator "type"

/-- `TextInputComponent.exists`. -/
def TextInputComponent.exists {σ} (t : TextInputComponent) : M σ Bool := do
  let count ← countP t.inputLocator
  M.pure (decide (count > 0))

/-- `TextInputComponent.isVisible`. -/
def TextInputComponent.isVisible {σ} (t : TextInputComponent) : M σ Bool :=
  isVisibleP t.inputLocator none

/-- `TextInputComponent.isEnabled`. -/
def TextInputComponent.isEnabled {σ} (t : TextInputComponent) : M σ Bool :=
  isEnabledP t.inputLocator

/-- `TextInputComponent.isReadOnly`: whether the readonly attribute is not null. -/
def TextInputComponent.isReadOnly {σ} (t : TextInputComponent) : M σ Bool := do
  let attr ← getAttributeP t.inputLocator "readonly"
  M.pure attr.isSome

/-- `TextInputComponent.getPlaceholder`. -/
def TextInputComponent.getPlaceholder {σ} (t : TextInputComponent) : M σ (Option String) :=
  getAttributeP t.inputLocator "placeholder"

/-- `TextInputComponent.matchesPattern(pattern)`: the JS regex is embedded
as its decision function on strings. -/
def TextInputComponent.matchesPattern {σ} (t : TextInputComponent)
    (pattern : String → Bool) : M σ Bool := do
  let value ← t.getValue
  M.pure (pattern value)

/-- `ALLOWED_STATUSES` from `utils/constants.js`. -/
def ALLOWED_STATUSES : List String := ["Open", "To Do", "In Progress", "Done", "Closed"]

/-- `OPEN_STATUSES` from `utils/constants.js`. -/
def OPEN_STATUSES : List String := ["Open", "To Do", "In Progress"]

/-- `CLOSED_STATUSES` from `utils/constants.js`. -/
def CLOSED_STATUSES : List String := ["Done", "Closed"]

namespace FiltersPage

/-- Status-filter dropdown locator fixed in the `FiltersPage` constructor. -/
def statusDropdown : String := "[data-testid=\"status.ui.filter.dropdown\"]"

/-- Per-status body of the `for (const status of statuses)` loop in
`selectStatusFilters`: resolve `input[value="<status>"]`, fail if it does
not exist, otherwise check it. -/
def checkStatusLoop {σ} : List String → M σ Unit
  | [] => M.pure ()
  | status :: rest => do
      let count ← countP ("input[value=\"" ++ status ++ "\"]")
      if count = 0 then throwE (.statusCheckboxNotFound status)
      else do
        checkP ("input[value=\"" ++ status ++ "\"]")
        checkStatusLoop rest

/-- `FiltersPage.selectStatusFilters(statuses)`: shape validation, whitelist
validation (both before any page interaction), then open the dropdown, wait
for the listbox with the named `DROPDOWN_OPEN` timeout, check each status
checkbox, and press Escape.  In this typed embedding the argument is always
an array, so the JS `!Array.isArray(statuses)` disjunct of the shape check
is identically false and the check reduces to emptiness. -/
def selectStatusFilters {σ} (statuses : List String) : M σ Unit :=
  if statuses.length = 0 then throwE .statusArrayRequired
  else
    let invalidStatuses := statuses.filter (fun status => !(ALLOWED_STATUSES.contains status))
    if invalidStatuses.length > 0 then
      throwE (.invalidStatusValues invalidStatuses ALLOWED_STATUSES)
    else do
      clickP statusDropdown
      waitForSelectorP "[role=\"listbox\"]" (.named .DROPDOWN_OPEN)
      checkStatusLoop statuses
      pressP "Escape"

end FiltersPage

/-- JS falsiness of an environment-variable lookup: absent, or present but
the empty string. -/
def falsyEnv : Option String → Bool
  | none => true
  | some s => s == ""

/-- `globalSetup` from `tests/auth/login.setup.js`: validate the three
required environment variables (throwing one aggregate error before any
browser interaction), then launch, log in through the two-step form, wait
for the Jira URL with a literal 10000 ms timeout, persist the storage
state, close the browser, and verify the artifact exists. -/
def globalSetup {σ} : M σ Unit := do
  let url ← getEnvP "JIRA_URL"
  let username ← getEnvP "JIRA_USERNAME"
  let password ← getEnvP "JIRA_PASSWORD"
  if falsyEnv url || falsyEnv username || falsyEnv password then throwE .missingEnvVars
  else do
    launchBrowserP
    newPageP
    gotoP (url.getD "")
    fillP "#username" (username.getD "")
    clickP "#login-submit"
    fillP "#password" (password.getD "")
    clickP "#login-submit"
    waitForURLP "**/jira/**" (.literal 10000)
    saveStorageStateP "storageState.json"
    closeBrowserP
    let ex ← existsSyncP "storageState.json"
    if !ex then throwE .storageStateNotSaved
    else logP "Authentication successful - session saved to storageState.json"

theorem data_append (a b : String) : (a ++ b).data = a.data ++ b.data :=
  String.data_append a b

theorem prefixOf_self_append (l t : List Char) : prefixOf l (l ++ t) = true := by
  induction l with
  | nil => rfl
  | cons a as ih => simp [prefixOf, ih]

theorem occursIn_append (pre mid post : List Char) :
    occursIn mid (pre ++ mid ++ post) = true := by
  induction pre with
  | nil =>
      cases mid with
      | nil => cases post <;> simp [occursIn, prefixOf]
      | cons m ms =>
          simp only [List.nil_append, List.cons_append, occursIn, Bool.or_eq_true]
          left
          exact prefixOf_self_append (m :: ms) post
  | cons c cs ih => simp [occursIn, List.cons_append] at ih ⊢; right; exact ih

theorem mentions_of_decomp (msg x : String) (pre post : List Char)
    (h : msg.data = pre ++ x.data ++ post) : mentions msg x = true := by
  unfold mentions; rw [h]; exact occursIn_append _ _ _

theorem mentions_concat (a b c : String) : mentions (a ++ b ++ c) b = true :=
  mentions_of_decomp _ _ a.data c.data (by simp [data_append])

theorem jsJoin_decomp (sep x : String) (l : List String) (h : x ∈ l) :
    ∃ pre post, (jsJoin sep l).data = pre ++ x.data ++ post := by
  induction l with
  | nil => cases h
  | cons a as ih =>
      cases as with
      | nil =>
          rcases List.mem_singleton.mp h with rfl
          exact ⟨[], [], by simp [jsJoin]⟩
      | cons b bs =>
          rcases List.mem_cons.mp h with rfl | h2
          · refine ⟨[], (sep ++ jsJoin sep (b :: bs)).data, ?_⟩
            simp [jsJoin, data_append, List.append_assoc]
          · rcases ih h2 with ⟨pre, post, hd⟩
            refine ⟨(a ++ sep).data ++ pre, post, ?_⟩
            simp [jsJoin, data_append, hd, List.append_assoc]

theorem mentions_mid_jsJoin (a c sep x : String) (l : List String) (h : x ∈ l) :
    mentions (a ++ jsJoin sep l ++ c) x = true := by
  rcases jsJoin_decomp sep x l h with ⟨pre, post, hd⟩
  refine mentions_of_decomp _ _ (a.data ++ pre) (post ++ c.data) ?_
  simp [data_append, hd, List.append_assoc]

/-- An all-succeeding primitive semantics over the trivial page state, used
as the base for concrete witnesses. -/
def okEnv : PageEnv Unit where
  click := fun _ s => (.ok (), s)
  waitForSelector := fun _ _ s => (.ok (), s)
  press := fun _ s => (.ok (), s)
  countQ := fun _ s => (.ok 0, s)
  nthInnerText := fun _ _ s => (.ok "", s)
  innerText := fun _ s => (.ok "", s)
  isVisibleQ := fun _ _ s => (.ok true, s)
  isEnabledQ := fun _ s => (.ok true, s)
  isCheckedQ := fun _ s => (.ok false, s)
  checkA := fun _ s => (.ok (), s)
  uncheckA := fun _ s => (.ok (), s)
  fillA := fun _ _ s => (.ok (), s)
  inputValueQ := fun _ s => (.ok "", s)
  getAttributeQ := fun _ _ s => (.ok none, s)
  allTextContentsQ := fun _ s => (.ok [], s)
  typeA := fun _ _ s => (.ok (), s)
  focusA := fun _ s => (.ok (), s)
  blurA := fun _ s => (.ok (), s)
  waitForA := fun _ _ s => (.ok (), s)
  getEnvVar := fun _ => none
  launchBrowser := fun s => (.ok (), s)
  newPage := fun s => (.ok (), s)
  gotoA := fun _ s => (.ok (), s)
  waitForURL := fun _ _ s => (.ok (), s)
  saveStorageState := fun _ s => (.ok (), s)
  closeBrowser := fun s => (.ok (), s)
  existsSyncQ := fun _ s => (true, s)

/-- Concrete semantics of a table whose cells read `cells`, over the trivial
page state. -/
def tableEnv (cells : List String) : PageEnv Unit :=
  { okEnv with
    countQ := fun _ s => (.ok cells.length, s)
    nthInnerText := fun _ i s =>
      (if 0 ≤ i ∧ i < (cells.length : Int) then .ok (cells.getD i.toNat "")
       else .error (.failure "nth"), s) }

/-- C5: for every table state (a table whose count reads `cells.length` and
whose in-range cells read from `cells`) and every index `i`,
`Table.getRowText(i)` raises the out-of-range error naming both the
requested index and the actual row count whenever `i >= rowCount`, and
returns the defined string `cells[i]` for every `0 <= i < rowCount`. -/
theorem C5_getRowText_bounds {σ : Type} (env : PageEnv σ) (s : σ) (t : TableComponent)
    (cells : List String) (index : Int)
    (hcount : ∀ s', env.countQ t.cellLocator s' = (.ok cells.length, s'))
    (hcell : ∀ s' (i : Nat), i < cells.length →
      env.nthInnerText t.cellLocator (i : Int) s' = (.ok (cells.getD i ""), s')) :
    ((cells.length : Int) ≤ index →
      (t.getRowText index env s).res = .error (.rowIndexOutOfBounds index cells.length) ∧
      mentions (Err.render (.rowIndexOutOfBounds index cells.length)) (toString index) = true ∧
      mentions (Err.render (.rowIndexOutOfBounds index cells.length))
        (toString cells.length) = true) ∧
    (0 ≤ index → index < (cells.length : Int) →
      (t.getRowText index env s).res = .ok (cells.getD index.toNat "")) := by
  constructor
  · intro hle
    refine ⟨?_, ?_, ?_⟩
    · simp [TableComponent.getRowText, TableComponent.getRowCount, countP, liftPrim,
        M.bind_eq, M.bind, hcount s, hle, throwE]
    · exact mentions_of_decomp _ _ "Row index ".data
        ((" out of bounds. Total rows: " ++ toString cells.length).data)
        (by simp [Err.render, data_append, List.append_assoc])
    · exact mentions_of_decomp _ _
        ("Row index " ++ toString index ++ " out of bounds. Total rows: ").data []
        (by simp [Err.render, data_append, List.append_assoc])
  · intro h0 hlt
    have hi : index.toNat < cells.length := by omega
    have hcell2 : env.nthInnerText t.cellLocator index s = (.ok (cells.getD index.toNat ""), s) := by
      have h2 := hcell s index.toNat hi
      rwa [Int.toNat_of_nonneg h0] at h2
    have hnle : ¬ ((cells.length : Int) ≤ index) := by omega
    simp [TableComponent.getRowText, TableComponent.getRowCount, countP, nthInnerTextP,
      liftPrim, M.bind_eq, M.bind, hcount s, hcell2, hnle]

/-- Witness for C5 on a concrete two-row table. -/
theorem C5_witness :
    ((TableComponent.mk "[data-testid=\"issue.status\"]").getRowText 5
        (tableEnv ["Open", "Done"]) ()).res = .error (.rowIndexOutOfBounds 5 2) ∧
    ((TableComponent.mk "[data-testid=\"issue.status\"]").getRowText 1
        (tableEnv ["Open", "Done"]) ()).res = .ok "Done" := by
  have h := C5_getRowText_bounds (tableEnv ["Open", "Done"]) ()
    (TableComponent.mk "[data-testid=\"issue.status\"]") ["Open", "Done"] 5
    (fun _ => rfl)
    (by
      intro s' i hi
      simp only [List.length_cons, List.length_nil] at hi
      interval_cases i <;> rfl)
  have h2 := C5_getRowText_bounds (tableEnv ["Open", "Done"]) ()
    (TableComponent.mk "[data-testid=\"issue.status\"]") ["Open", "Done"] 1
    (fun _ => rfl)
    (by
      intro s' i hi
      simp only [List.length_cons, List.length_nil] at hi
      interval_cases i <;> rfl)
  exact ⟨(h.1 (by decide)).1, h2.2 (by decide) (by decide)⟩

/-- C9: for every negative index `i`, `Table.getRowText(i)` does not raise
the documented out-of-range error: the guard only rejects `i >= rowCount`,
so a negative index passes it and is forwarded unchanged to the underlying
nth-element query. -/
theorem C9_getRowText_negative {σ : Type} (env : PageEnv σ) (s : σ) (t : TableComponent)
    (index : Int) (n : Nat) (s1 : σ)
    (hcount : env.countQ t.cellLocator s = (.ok n, s1))
    (hneg : index < 0) :
    (∀ j m, (t.getRowText index env s).res ≠ .error (.rowIndexOutOfBounds j m)) ∧
    Act.nthInnerText t.cellLocator index ∈ (t.getRowText index env s).trace := by
  have hnle : ¬ ((n : Int) ≤ index) := by omega
  simp only [TableComponent.getRowText, TableComponent.getRowCount, countP, nthInnerTextP,
    liftPrim, M.bind_eq, M.bind, hcount, hnle, if_false, ite_false]
  rcases env.nthInnerText t.cellLocator index s1 with ⟨r, s2⟩
  cases r <;> simp

/-- Witness for C9 at index `-1` on a concrete one-row table. -/
theorem C9_witness :
    ((TableComponent.mk "[data-testid=\"issue.status\"]").getRowText (-1)
        (tableEnv ["Open"]) ()).res ≠ .error (.rowIndexOutOfBounds (-1) 1) ∧
    Act.nthInnerText "[data-testid=\"issue.status\"]" (-1) ∈
      ((TableComponent.mk "[data-testid=\"issue.status\"]").getRowText (-1)
        (tableEnv ["Open"]) ()).trace := by
  have h := C9_getRowText_negative (tableEnv ["Open"]) ()
    (TableComponent.mk "[data-testid=\"issue.status\"]") (-1) 1 () rfl (by decide)
  exact ⟨h.1 (-1) 1, h.2⟩

/-- Trace of primitive queries issued while validating the given row
indices in order: each iteration re-queries the row count (through
`getRowText`) and then reads the cell. -/
def rowQueryTrace (loc : String) : List Nat → List Act
  | [] => []
  | j :: rest => .countQ loc :: .nthInnerText loc (j : Int) :: rowQueryTrace loc rest

theorem rowQueryTrace_append (loc : String) (l1 l2 : List Nat) :
    rowQueryTrace loc (l1 ++ l2) = rowQueryTrace loc l1 ++ rowQueryTrace loc l2 := by
  induction l1 with
  | nil => rfl
  | cons j rest ih => simp [rowQueryTrace, ih]


theorem nthInnerText_mem_rowQueryTrace (loc loc' : String) (j : Int) (l : List Nat)
    (h : Act.nthInnerText loc' j ∈ rowQueryTrace loc l) :
    ∃ m ∈ l, j = (m : Int) := by
  induction l with
  | nil => cases h
  | cons a rest ih =>
      rcases List.mem_cons.mp h with h1 | h2
      · simp at h1
      · rcases List.mem_cons.mp h2 with h3 | h4
        · simp only [Act.nthInnerText.injEq] at h3
          exact ⟨a, List.mem_cons_self a rest, h3.2⟩
        · rcases ih h4 with ⟨m, hm, hj⟩
          exact ⟨m, List.mem_cons_of_mem a hm, hj⟩

/-- Running `getRowText` on an in-range natural index of a read-only table
whose count reads `len` and whose rows read `row`. -/
theorem getRowText_run_ok {σ : Type} (env : PageEnv σ) (t : TableComponent)
    (len : Nat) (row : Nat → String)
    (hcount : ∀ s', env.countQ t.cellLocator s' = (.ok len, s'))
    (hcell : ∀ s' (i : Nat), i < len →
      env.nthInnerText t.cellLocator (i : Int) s' = (.ok (row i), s'))
    (i : Nat) (hi : i < len) (s : σ) :
    t.getRowText (i : Int) env s =
      ⟨.ok (row i), s,
        [.countQ t.cellLocator, .nthInnerText t.cellLocator (i : Int)], false⟩ := by
  have hnle : ¬ (len ≤ i) := by omega
  have hc2 := hcell s i hi
  simp [TableComponent.getRowText, TableComponent.getRowCount, countP, nthInnerTextP,
    liftPrim, M.bind_eq, M.bind, hcount s, hc2, hnle]

/-- Running the validation loop over a window of rows that are all members
of `expectedValues`. -/
theorem validateLoop_run_ok {σ : Type} (env : PageEnv σ) (t : TableComponent)
    (len : Nat) (row : Nat → String) (expectedValues : List String)
    (hcount : ∀ s', env.countQ t.cellLocator s' = (.ok len, s'))
    (hcell : ∀ s' (i : Nat), i < len →
      env.nthInnerText t.cellLocator (i : Int) s' = (.ok (row i), s')) :
    ∀ (n i : Nat) (s : σ), i + n = len →
      (∀ j, i ≤ j → j < len → row j ∈ expectedValues) →
      t.validateLoop expectedValues n i env s =
        ⟨.ok (), s, rowQueryTrace t.cellLocator (List.range' i n), false⟩ := by
  intro n
  induction n with
  | zero => intro i s _ _; simp [TableComponent.validateLoop, M.pure, rowQueryTrace]
  | succ m ih =>
      intro i s hlen hmem
      have hi : i < len := by omega
      have hrun := getRowText_run_ok env t len row hcount hcell i hi s
      have hcont : row i ∈ expectedValues := hmem i (le_refl i) hi
      have ihrun := ih (i + 1) s (by omega)
        (fun j h1 h2 => hmem j (by omega) h2)
      simp [TableComponent.validateLoop, M.bind_eq, M.bind, hrun, hcont, ihrun,
        List.range'_succ, rowQueryTrace]

/-- Running the validation loop when the first non-member sits at row `b`
inside the window. -/
theorem validateLoop_run_bad {σ : Type} (env : PageEnv σ) (t : TableComponent)
    (len : Nat) (row : Nat → String) (expectedValues : List String) (b : Nat)
    (hcount : ∀ s', env.countQ t.cellLocator s' = (.ok len, s'))
    (hcell : ∀ s' (i : Nat), i < len →
      env.nthInnerText t.cellLocator (i : Int) s' = (.ok (row i), s'))
    (hb : b < len)
    (hbad : row b ∉ expectedValues) :
    ∀ (n i : Nat) (s : σ), i + n = len → i ≤ b →
      (∀ j, i ≤ j → j < b → row j ∈ expectedValues) →
      t.validateLoop expectedValues n i env s =
        ⟨.error (.unexpectedValue (row b) expectedValues), s,
          rowQueryTrace t.cellLocator (List.range' i (b - i + 1)), false⟩ := by
  intro n
  induction n with
  | zero => intro i s hlen hib _; omega
  | succ m ih =>
      intro i s hlen hib hmem
      have hi : i < len := by omega
      have hrun := getRowText_run_ok env t len row hcount hcell i hi s
      by_cases heq : i = b
      · subst heq
        simp [TableComponent.validateLoop, M.bind_eq, M.bind, hrun, hbad, throwE,
          Nat.sub_self, rowQueryTrace]
      · have hcont : row i ∈ expectedValues := hmem i (le_refl i) (by omega)
        have ihrun := ih (i + 1) s (by omega) (by omega)
          (fun j h1 h2 => hmem j (by omega) h2)
        have hr : List.range' i (b - i + 1) = i :: List.range' (i + 1) (b - (i + 1) + 1) := by
          have h2 : b - i + 1 = (b - (i + 1) + 1) + 1 := by omega
          rw [h2, List.range'_succ]
        simp [TableComponent.validateLoop, M.bind_eq, M.bind, hrun, hcont, ihrun, hr,
          rowQueryTrace, show b - i = b - (i + 1) + 1 by omega]

/-- C6: on a read-only table whose count reads `len` and whose rows read
`row`, `validateAllCellsContainExpectedValues(expected)` (1) returns
successfully with only a warning whenever the table has zero rows, for
every expected list; (2) whenever rows exist and the first non-member row
text (in document order) sits at row `b`, it raises the unexpected-value
error naming that cell text and the full expected set, and no row after
`b` is ever examined; (3) whenever every row text is a member, it returns
successfully. -/
theorem C6_validateAllCells {σ : Type} (env : PageEnv σ) (s : σ) (t : TableComponent)
    (len : Nat) (row : Nat → String) (expectedValues : List String)
    (hcount : ∀ s', env.countQ t.cellLocator s' = (.ok len, s'))
    (hcell : ∀ s' (i : Nat), i < len →
      env.nthInnerText t.cellLocator (i : Int) s' = (.ok (row i), s')) :
    (len = 0 →
      t.validateAllCellsContainExpectedValues expectedValues env s =
        ⟨.ok (), s, [.countQ t.cellLocator, .warn "No rows found in table"], false⟩) ∧
    (∀ b : Nat, b < len →
      row b ∉ expectedValues →
      (∀ j, j < b → row j ∈ expectedValues) →
      (t.validateAllCellsContainExpectedValues expectedValues env s).res =
        .error (.unexpectedValue (row b) expectedValues) ∧
      mentions (Err.render (.unexpectedValue (row b) expectedValues)) (row b) = true ∧
      (∀ x ∈ expectedValues,
        mentions (Err.render (.unexpectedValue (row b) expectedValues)) x = true) ∧
      (∀ j : Int, Act.nthInnerText t.cellLocator j ∈
          (t.validateAllCellsContainExpectedValues expectedValues env s).trace →
        j ≤ (b : Int))) ∧
    ((∀ j, j < len → row j ∈ expectedValues) →
      (t.validateAllCellsContainExpectedValues expectedValues env s).res = .ok ()) := by
  refine ⟨?_, ?_, ?_⟩
  · intro hnil
    subst hnil
    simp [TableComponent.validateAllCellsContainExpectedValues, TableComponent.getRowCount,
      countP, liftPrim, M.bind_eq, M.bind, hcount s, warnP]
  · intro b hb hbad hpre
    have hrun := validateLoop_run_bad env t len row expectedValues b hcount hcell hb hbad
      len 0 s (by omega) (by omega) (fun j _ h2 => hpre j h2)
    have hne : len ≠ 0 := by omega
    have hall : t.validateAllCellsContainExpectedValues expectedValues env s =
        ⟨.error (.unexpectedValue (row b) expectedValues), s,
          .countQ t.cellLocator :: rowQueryTrace t.cellLocator (List.range' 0 (b + 1)),
          false⟩ := by
      simp only [TableComponent.validateAllCellsContainExpectedValues,
        TableComponent.getRowCount, countP, liftPrim, M.bind_eq, M.bind, hcount s]
      rw [if_neg hne, hrun]
      simp
    refine ⟨by rw [hall], ?_, ?_, ?_⟩
    · exact mentions_of_decomp _ _ "Unexpected value found: \"".data
        (("\". Expected one of: " ++ jsJoin ", " expectedValues).data)
        (by simp [Err.render, data_append, List.append_assoc])
    · intro x hx
      rcases jsJoin_decomp ", " x expectedValues hx with ⟨pre, post, hd⟩
      refine mentions_of_decomp _ _
        (("Unexpected value found: \"" ++ row b ++ "\". Expected one of: ").data ++ pre)
        post ?_
      simp [Err.render, data_append, hd, List.append_assoc]
    · intro j hj
      rw [hall] at hj
      rcases List.mem_cons.mp hj with h1 | h2
      · simp at h1
      · rcases nthInnerText_mem_rowQueryTrace _ _ _ _ h2 with ⟨m, hm, rfl⟩
        rcases List.mem_range'.mp hm with ⟨k, hk, rfl⟩
        omega
  · intro hall
    cases hc : len with
    | zero =>
        subst hc
        simp [TableComponent.validateAllCellsContainExpectedValues, TableComponent.getRowCount,
          countP, liftPrim, M.bind_eq, M.bind, hcount s, warnP]
    | succ m =>
        have hrun := validateLoop_run_ok env t len row expectedValues hcount hcell
          len 0 s (by omega) (fun j _ h2 => hall j h2)
        have hne : len ≠ 0 := by omega
        simp [TableComponent.validateAllCellsContainExpectedValues, TableComponent.getRowCount,
          countP, liftPrim, M.bind_eq, M.bind, hcount s, hne, hrun]

/-- Witness for C6: the empty table accepts the empty expected list, and a
table reading `["Open", "Blocked", "Done"]` against the open statuses
fails at row 1 naming `Blocked`. -/
theorem C6_witness :
    ((TableComponent.mk "[data-testid=\"issue.status\"]").validateAllCellsContainExpectedValues
        [] (tableEnv []) ()).res = .ok () ∧
    ((TableComponent.mk "[data-testid=\"issue.status\"]").validateAllCellsContainExpectedValues
        ["Open", "To Do", "In Progress"] (tableEnv ["Open", "Blocked", "Done"]) ()).res =
      .error (.unexpectedValue "Blocked" ["Open", "To Do", "In Progress"]) := by
  have h1 := C6_validateAllCells (tableEnv []) ()
    (TableComponent.mk "[data-testid=\"issue.status\"]") 0
    (fun j => [].getD j "") []
    (fun _ => rfl) (fun s' i hi => by omega)
  have h2 := C6_validateAllCells (tableEnv ["Open", "Blocked", "Done"]) ()
    (TableComponent.mk "[data-testid=\"issue.status\"]") 3
    (fun j => ["Open", "Blocked", "Done"].getD j "") ["Open", "To Do", "In Progress"]
    (fun _ => rfl)
    (by
      intro s' i hi
      interval_cases i <;> rfl)
  constructor
  · rw [h1.1 rfl]
  · exact (h2.2.1 1 (by decide) (by decide)
      (by intro j hj; interval_cases j <;> decide)).1

/-- C10: `FormInputComponent.fill` of the empty string raises the error
`Input value cannot be empty`
before touching the page (empty trace, state unchanged); consequently
`clearAndFill` of the empty string first clears the field (the page-level
fill primitive runs) and then raises, leaving the page in the post-clear state
rather than restoring the prior contents — reading the field afterwards
yields the cleared (empty) value. -/
theorem C10_fill_empty {σ : Type} (env : PageEnv σ) (s : σ) (f : FormInputComponent) :
    f.fill "" env s = ⟨.error .inputEmpty, s, [], false⟩ ∧
    (∀ s1, env.fillA f.inputLocator "" s = (.ok (), s1) →
      f.clearAndFill "" env s =
        ⟨.error .inputEmpty, s1, [.fillA f.inputLocator ""], false⟩ ∧
      (∀ s2, env.inputValueQ f.inputLocator s1 = (.ok "", s2) →
        (f.getValue env (f.clearAndFill "" env s).state).res = .ok "")) := by
  constructor
  · simp [FormInputComponent.fill, throwE]
  · intro s1 h1
    have hcf : f.clearAndFill "" env s =
        ⟨.error .inputEmpty, s1, [.fillA f.inputLocator ""], false⟩ := by
      simp [FormInputComponent.clearAndFill, FormInputComponent.clear,
        FormInputComponent.fill, fillP, liftPrim, M.bind_eq, M.bind, h1, throwE]
    refine ⟨hcf, ?_⟩
    intro s2 h2
    rw [hcf]
    simp [FormInputComponent.getValue, inputValueP, liftPrim, h2]

/-- Input-field semantics over the page state `σ = String` (the current
field contents): `fill` overwrites the state, `inputValue` reads it. -/
def inputEnv : PageEnv String where
  click := fun _ s => (.ok (), s)
  waitForSelector := fun _ _ s => (.ok (), s)
  press := fun _ s => (.ok (), s)
  countQ := fun _ s => (.ok 0, s)
  nthInnerText := fun _ _ s => (.ok "", s)
  innerText := fun _ s => (.ok "", s)
  isVisibleQ := fun _ _ s => (.ok true, s)
  isEnabledQ := fun _ s => (.ok true, s)
  isCheckedQ := fun _ s => (.ok false, s)
  checkA := fun _ s => (.ok (), s)
  uncheckA := fun _ s => (.ok (), s)
  fillA := fun _ v _ => (.ok (), v)
  inputValueQ := fun _ s => (.ok s, s)
  getAttributeQ := fun _ _ s => (.ok none, s)
  allTextContentsQ := fun _ s => (.ok [], s)
  typeA := fun _ _ s => (.ok (), s)
  focusA := fun _ s => (.ok (), s)
  blurA := fun _ s => (.ok (), s)
  waitForA := fun _ _ s => (.ok (), s)
  getEnvVar := fun _ => none
  launchBrowser := fun s => (.ok (), s)
  newPage := fun s => (.ok (), s)
  gotoA := fun _ s => (.ok (), s)
  waitForURL := fun _ _ s => (.ok (), s)
  saveStorageState := fun _ s => (.ok (), s)
  closeBrowser := fun s => (.ok (), s)
  existsSyncQ := fun _ s => (true, s)

/-- Witness for C10 on a field currently holding `"old"`: the clear runs,
the fill raises, and the field ends up empty instead of `"old"`. -/
theorem C10_witness :
    (FormInputComponent.mk "#jql").fill "" inputEnv "old" =
      ⟨.error .inputEmpty, "old", [], false⟩ ∧
    (FormInputComponent.mk "#jql").clearAndFill "" inputEnv "old" =
      ⟨.error .inputEmpty, "", [.fillA "#jql" ""], false⟩ ∧
    ((FormInputComponent.mk "#jql").getValue inputEnv
      ((FormInputComponent.mk "#jql").clearAndFill "" inputEnv "old").state).res = .ok "" := by
  have h := C10_fill_empty inputEnv "old" (FormInputComponent.mk "#jql")
  exact ⟨h.1, (h.2 "" rfl).1, (h.2 "" rfl).2 "" rfl⟩

/-- C8: `Dropdown.close()` presses Escape unconditionally — its trace is
exactly one key press with no verification step — and never raises in any
page state where pressing a key succeeds; closing twice in a row causes no
error; and when the Escape press dismisses the options container (the
subsequent probe wait fails on it), `close()` followed immediately by
`isOpen()` returns `false`. -/
theorem C8_close_isOpen {σ : Type} (env : PageEnv σ) (s : σ) (d : DropdownComponent)
    (esc : σ → σ)
    (hpress : ∀ s', env.press "Escape" s' = (.ok (), esc s')) :
    d.close env s = ⟨.ok (), esc s, [.press "Escape"], false⟩ ∧
    (d.close >>= fun _ => d.close) env s =
      ⟨.ok (), esc (esc s), [.press "Escape", .press "Escape"], false⟩ ∧
    (∀ e w,
      env.waitForSelector d.optionsLocator (.literal 1000) (esc s) = (.error e, w) →
      ((d.close >>= fun _ => d.isOpen) env s).res = .ok false) := by
  have hclose : ∀ s', d.close env s' = ⟨.ok (), esc s', [.press "Escape"], false⟩ := by
    intro s'
    simp [DropdownComponent.close, pressP, liftPrim, hpress s']
  refine ⟨hclose s, ?_, ?_⟩
  · simp [M.bind_eq, M.bind, hclose]
  · intro e w hw
    simp [M.bind_eq, M.bind, hclose s, DropdownComponent.isOpen, attempt,
      waitForSelectorP, liftPrim, hw, M.pure]

/-- Dropdown semantics over the page state `σ = Bool` (whether the options
container is open): Escape closes it, and waiting for the container
succeeds only while it is open. -/
def dropdownEnv : PageEnv Bool where
  click := fun _ s => (.ok (), s)
  waitForSelector := fun loc _ s =>
    if s then (.ok (), s) else (.error (.timeout loc), s)
  press := fun key s => if key == "Escape" then (.ok (), false) else (.ok (), s)
  countQ := fun _ s => (.ok 0, s)
  nthInnerText := fun _ _ s => (.ok "", s)
  innerText := fun _ s => (.ok "", s)
  isVisibleQ := fun _ _ s => (.ok s, s)
  isEnabledQ := fun _ s => (.ok true, s)
  isCheckedQ := fun _ s => (.ok false, s)
  checkA := fun _ s => (.ok (), s)
  uncheckA := fun _ s => (.ok (), s)
  fillA := fun _ _ s => (.ok (), s)
  inputValueQ := fun _ s => (.ok "", s)
  getAttributeQ := fun _ _ s => (.ok none, s)
  allTextContentsQ := fun _ s => (.ok [], s)
  typeA := fun _ _ s => (.ok (), s)
  focusA := fun _ s => (.ok (), s)
  blurA := fun _ s => (.ok (), s)
  waitForA := fun _ _ s => (.ok (), s)
  getEnvVar := fun _ => none
  launchBrowser := fun s => (.ok (), s)
  newPage := fun s => (.ok (), s)
  gotoA := fun _ s => (.ok (), s)
  waitForURL := fun _ _ s => (.ok (), s)
  saveStorageState := fun _ s => (.ok (), s)
  closeBrowser := fun s => (.ok (), s)
  existsSyncQ := fun _ s => (true, s)

/-- Witness for C8, starting from an open dropdown: close succeeds, double
close succeeds, and close followed by `isOpen()` reports `false`. -/
theorem C8_witness :
    (DropdownComponent.mk "#dd" "[role=\"listbox\"]").close dropdownEnv true =
      ⟨.ok (), false, [.press "Escape"], false⟩ ∧
    ((DropdownComponent.mk "#dd" "[role=\"listbox\"]").close >>= fun _ =>
      (DropdownComponent.mk "#dd" "[role=\"listbox\"]").close) dropdownEnv true =
      ⟨.ok (), false, [.press "Escape", .press "Escape"], false⟩ ∧
    (((DropdownComponent.mk "#dd" "[role=\"listbox\"]").close >>= fun _ =>
      (DropdownComponent.mk "#dd" "[role=\"listbox\"]").isOpen) dropdownEnv true).res =
      .ok false := by
  have h := C8_close_isOpen dropdownEnv true (DropdownComponent.mk "#dd" "[role=\"listbox\"]")
    (fun _ => false) (fun _ => rfl)
  exact ⟨h.1, h.2.1, h.2.2 (.timeout "[role=\"listbox\"]") false rfl⟩

theorem liftPrim_trace {σ β} (act : Act) (f : PageEnv σ → σ → Except PErr β × σ)
    (env : PageEnv σ) (s : σ) : (liftPrim act f env s).trace = [act] := by
  unfold liftPrim
  rcases f env s with ⟨r, s1⟩
  cases r <;> rfl

theorem trace_bind_cons {σ α β} (x : M σ α) (f : α → M σ β) (env : PageEnv σ) (s : σ)
    (act : Act) (tr : List Act) (h : (x env s).trace = act :: tr) :
    ∃ rest, ((x >>= f) env s).trace = act :: rest := by
  simp only [M.bind_eq, M.bind]
  revert h
  rcases x env s with ⟨r, s1, trc, fl⟩
  intro h
  cases r with
  | error e => exact ⟨tr, h⟩
  | ok a =>
      refine ⟨tr ++ (f a env s1).trace, ?_⟩
      have h2 : trc = act :: tr := h
      simp [h2]

/-- `true` on every action except an `allTextContents` enumeration of a
contents of the container. -/
def notEnum : Act → Bool
  | .allTextContentsQ _ => false
  | _ => true

theorem notEnum_bind {σ α β} {x : M σ α} {f : α → M σ β}
    (hx : TraceAll notEnum x) (hf : ∀ a, TraceAll notEnum (f a)) :
    TraceAll notEnum (x >>= f) := traceAll_bind hx hf

/-- C7: `Dropdown.selectOption(text)` (1) always performs `open()` first —
the very first primitive is the trigger click; (2) never enumerates the
container contents — no `allTextContents` query appears in any trace;
(3) when the dropdown opens and zero elements resolve for `text=<text>`,
it fails with a not-found error naming the missing option, performing no
further page interaction; (4) when at least one element resolves, it
clicks the matching option. -/
theorem C7_selectOption {σ : Type} (env : PageEnv σ) (s : σ) (d : DropdownComponent)
    (optionText : String) :
    (∃ rest, (d.selectOption optionText env s).trace = .click d.dropdownLocator :: rest) ∧
    (∀ loc, Act.allTextContentsQ loc ∉ (d.selectOption optionText env s).trace) ∧
    (∀ s1 s2 s3, env.click d.dropdownLocator s = (.ok (), s1) →
      env.waitForSelector d.optionsLocator (.named .DROPDOWN_OPEN) s1 = (.ok (), s2) →
      env.countQ ("text=" ++ optionText) s2 = (.ok 0, s3) →
      d.selectOption optionText env s =
        ⟨.error (.optionNotFound optionText), s3,
          [.click d.dropdownLocator,
           .waitForSelector d.optionsLocator (.named .DROPDOWN_OPEN),
           .countQ ("text=" ++ optionText)], false⟩ ∧
      mentions (Err.render (.optionNotFound optionText)) optionText = true) ∧
    (∀ s1 s2 s3 m, env.click d.dropdownLocator s = (.ok (), s1) →
      env.waitForSelector d.optionsLocator (.named .DROPDOWN_OPEN) s1 = (.ok (), s2) →
      env.countQ ("text=" ++ optionText) s2 = (.ok (m + 1), s3) →
      (d.selectOption optionText env s).trace =
        [.click d.dropdownLocator,
         .waitForSelector d.optionsLocator (.named .DROPDOWN_OPEN),
         .countQ ("text=" ++ optionText),
         .click ("text=" ++ optionText)]) := by
  refine ⟨?_, ?_, ?_, ?_⟩
  · have hopen : ∃ tr, (d.open env s).trace = .click d.dropdownLocator :: tr := by
      unfold DropdownComponent.open
      exact trace_bind_cons _ _ env s _ [] (liftPrim_trace _ _ env s)
    rcases hopen with ⟨tr, htr⟩
    unfold DropdownComponent.selectOption
    exact trace_bind_cons _ _ env s _ tr htr
  · intro loc hmem
    have hta : TraceAll notEnum (d.selectOption optionText (σ := σ)) := by
      unfold DropdownComponent.selectOption DropdownComponent.open
      refine notEnum_bind (notEnum_bind (traceAll_liftPrim _ _ rfl)
        (fun _ => traceAll_liftPrim _ _ rfl)) (fun _ => ?_)
      refine notEnum_bind (traceAll_liftPrim _ _ rfl) (fun count => ?_)
      exact traceAll_ite _ (traceAll_throwE _ _) (traceAll_liftPrim _ _ rfl)
    have := hta env s _ hmem
    simp [notEnum] at this
  · intro s1 s2 s3 h1 h2 h3
    constructor
    · simp [DropdownComponent.selectOption, DropdownComponent.open, clickP,
        waitForSelectorP, countP, liftPrim, M.bind_eq, M.bind, h1, h2, h3, throwE]
    · exact mentions_of_decomp _ _ "Option \"".data "\" not found in dropdown".data
        (by simp [Err.render, data_append, List.append_assoc])
  · intro s1 s2 s3 m h1 h2 h3
    simp [DropdownComponent.selectOption, DropdownComponent.open, clickP,
      waitForSelectorP, countP, liftPrim, M.bind_eq, M.bind, h1, h2, h3]
    rcases env.click ("text=" ++ optionText) s3 with ⟨r, s4⟩
    cases r <;> simp

/-- Witness for C7: with zero matching elements the not-found error is
raised after open, and with one matching element the option is clicked. -/
theorem C7_witness :
    (DropdownComponent.mk "#dd" "[role=\"listbox\"]").selectOption "Reopened" okEnv () =
      ⟨.error (.optionNotFound "Reopened"), (),
        [.click "#dd", .waitForSelector "[role=\"listbox\"]" (.named .DROPDOWN_OPEN),
         .countQ "text=Reopened"], false⟩ ∧
    mentions (Err.render (.optionNotFound "Reopened")) "Reopened" = true ∧
    ((DropdownComponent.mk "#dd" "[role=\"listbox\"]").selectOption "Open"
        { okEnv with countQ := fun _ s => (.ok 1, s) } ()).trace =
      [.click "#dd", .waitForSelector "[role=\"listbox\"]" (.named .DROPDOWN_OPEN),
       .countQ "text=Open", .click "text=Open"] := by
  have h := C7_selectOption okEnv () (DropdownComponent.mk "#dd" "[role=\"listbox\"]") "Reopened"
  have h2 := C7_selectOption { okEnv with countQ := fun _ s => (.ok 1, s) } ()
    (DropdownComponent.mk "#dd" "[role=\"listbox\"]") "Open"
  exact ⟨(h.2.2.1 () () () rfl rfl rfl).1, (h.2.2.1 () () () rfl rfl rfl).2,
    h2.2.2.2 () () () 0 rfl rfl rfl⟩

/-- The "Validation error" class of the spec (section 7): errors raised by the
whitelist/shape checks of `selectStatusFilters`. -/
def Err.isValidationError : Err → Bool
  | .statusArrayRequired => true
  | .invalidStatusValues _ _ => true
  | _ => false

/-- Every error `m` can produce satisfies `Q`. -/
def ErrAll {σ α} (Q : Err → Bool) (m : M σ α) : Prop :=
  ∀ env s e, (m env s).res = .error e → Q e = true

theorem errAll_pure {σ α} (Q : Err → Bool) (a : α) : ErrAll Q (M.pure (σ := σ) a) := by
  intro env s e h; simp [M.pure] at h

theorem errAll_throwE {σ α} {Q : Err → Bool} (e : Err) (hQ : Q e = true) :
    ErrAll Q (throwE (σ := σ) (α := α) e) := by
  intro env s e' h
  have h2 : Except.error (ε := Err) (α := α) e = Except.error e' := h
  injection h2 with h3
  rw [← h3]; exact hQ

theorem errAll_liftPrim {σ β} {Q : Err → Bool} (act : Act)
    (f : PageEnv σ → σ → Except PErr β × σ) (hQ : ∀ pe, Q (.prim pe) = true) :
    ErrAll Q (liftPrim act f) := by
  intro env s e h
  unfold liftPrim at h
  revert h
  rcases f env s with ⟨r, s1⟩
  cases r with
  | ok b => intro h; simp at h
  | error pe =>
      intro h
      have h2 : Except.error (ε := Err) (α := β) (Err.prim pe) = Except.error e := h
      injection h2 with h3
      rw [← h3]; exact hQ pe

theorem errAll_bind {σ α β} {Q : Err → Bool} {x : M σ α} {f : α → M σ β}
    (hx : ErrAll Q x) (hf : ∀ a, ErrAll Q (f a)) : ErrAll Q (x >>= f) := by
  intro env s e h
  simp only [M.bind_eq, M.bind] at h
  have hx1 := hx env s
  revert hx1 h
  rcases x env s with ⟨r, s1, tr, fl⟩
  cases r with
  | error e1 =>
      intro h hx1
      have h2 : Except.error (ε := Err) (α := β) e1 = Except.error e := h
      injection h2 with h3
      subst h3
      exact hx1 e1 rfl
  | ok a =>
      intro h hx1
      exact hf a env s1 e h

theorem errAll_ite {σ α} {Q : Err → Bool} (c : Prop) [Decidable c] {x y : M σ α}
    (hx : ErrAll Q x) (hy : ErrAll Q y) : ErrAll Q (if c then x else y) := by
  by_cases h : c <;> simp [h, hx, hy]

theorem errAll_checkStatusLoop {σ : Type} :
    ∀ l : List String,
      ErrAll (fun e => !e.isValidationError) (FiltersPage.checkStatusLoop (σ := σ) l) := by
  intro l
  induction l with
  | nil => exact errAll_pure _ _
  | cons a rest ih =>
      unfold FiltersPage.checkStatusLoop
      refine errAll_bind (errAll_liftPrim _ _ (fun _ => rfl)) (fun count => ?_)
      exact errAll_ite _ (errAll_throwE _ rfl)
        (errAll_bind (errAll_liftPrim _ _ (fun _ => rfl)) (fun _ => ih))

theorem errAll_selectBody {σ : Type} (statuses : List String) :
    ErrAll (fun e => !e.isValidationError)
      ((do
        clickP FiltersPage.statusDropdown
        waitForSelectorP "[role=\"listbox\"]" (.named .DROPDOWN_OPEN)
        FiltersPage.checkStatusLoop statuses
        pressP "Escape" : M σ Unit)) := by
  refine errAll_bind (errAll_liftPrim _ _ (fun _ => rfl)) (fun _ => ?_)
  refine errAll_bind (errAll_liftPrim _ _ (fun _ => rfl)) (fun _ => ?_)
  exact errAll_bind (errAll_checkStatusLoop statuses)
    (fun _ => errAll_liftPrim _ _ (fun _ => rfl))

/-- C1: for every non-empty status list whose elements are all members of
the whitelist, `selectStatusFilters` raises no validation error (any error
it produces under any page semantics is a primitive or checkbox-not-found
error, never a validation one); for every list containing a non-member, it
raises the validation error carrying exactly the non-members (in order)
and the full whitelist, with the message naming every non-member and the
whole whitelist, and with an empty trace and unchanged page state — no UI
interaction happens before the error. -/
theorem C1_selectStatusFilters {σ : Type} (env : PageEnv σ) (s : σ)
    (statuses : List String) :
    (statuses ≠ [] → (∀ st ∈ statuses, st ∈ ALLOWED_STATUSES) →
      ∀ e, (FiltersPage.selectStatusFilters statuses env s).res = .error e →
        e.isValidationError = false) ∧
    (∀ bad, bad ∈ statuses → bad ∉ ALLOWED_STATUSES →
      FiltersPage.selectStatusFilters statuses env s =
        ⟨.error (.invalidStatusValues
            (statuses.filter (fun st => !(ALLOWED_STATUSES.contains st))) ALLOWED_STATUSES),
          s, [], false⟩ ∧
      (∀ st, st ∈ statuses → st ∉ ALLOWED_STATUSES →
        st ∈ statuses.filter (fun st => !(ALLOWED_STATUSES.contains st)) ∧
        mentions (Err.render (.invalidStatusValues
          (statuses.filter (fun st => !(ALLOWED_STATUSES.contains st)))
          ALLOWED_STATUSES)) st = true) ∧
      (∀ a, a ∈ ALLOWED_STATUSES →
        mentions (Err.render (.invalidStatusValues
          (statuses.filter (fun st => !(ALLOWED_STATUSES.contains st)))
          ALLOWED_STATUSES)) a = true)) := by
  constructor
  · intro hne hall e hres
    have hlen : ¬ (statuses.length = 0) := by
      simpa [List.length_eq_zero] using hne
    have hfilter : statuses.filter (fun st => !(ALLOWED_STATUSES.contains st)) = [] := by
      rw [List.filter_eq_nil]
      intro a ha
      simp [hall a ha]
    unfold FiltersPage.selectStatusFilters at hres
    rw [if_neg hlen] at hres
    simp only [hfilter, List.length_nil, gt_iff_lt, lt_self_iff_false, if_false] at hres
    have hq := errAll_selectBody (σ := σ) statuses env s e hres
    simpa using hq
  · intro bad hbad hnota
    have hmem : bad ∈ statuses.filter (fun st => !(ALLOWED_STATUSES.contains st)) :=
      List.mem_filter.mpr ⟨hbad, by simp [hnota]⟩
    have hlen : ¬ (statuses.length = 0) := by
      intro h0
      rw [List.length_eq_zero] at h0
      subst h0
      cases hbad
    have hpos : 0 < (statuses.filter (fun st => !(ALLOWED_STATUSES.contains st))).length :=
      List.length_pos.mpr (fun hnil => by rw [hnil] at hmem; cases hmem)
    refine ⟨?_, ?_, ?_⟩
    · unfold FiltersPage.selectStatusFilters
      rw [if_neg hlen, if_pos (by exact hpos)]
      rfl
    · intro st hst hstna
      have hmemst : st ∈ statuses.filter (fun s' => !(ALLOWED_STATUSES.contains s')) :=
        List.mem_filter.mpr ⟨hst, by simp [hstna]⟩
      refine ⟨hmemst, ?_⟩
      rcases jsJoin_decomp ", " st _ hmemst with ⟨pre, post, hd⟩
      refine mentions_of_decomp _ _ ("Invalid status values: ".data ++ pre)
        (post ++ (". Allowed: " ++ jsJoin ", " ALLOWED_STATUSES).data) ?_
      simp only [Err.render, data_append]
      rw [hd]
      simp [List.append_assoc]
    · intro a ha
      rcases jsJoin_decomp ", " a ALLOWED_STATUSES ha with ⟨pre, post, hd⟩
      refine mentions_of_decomp _ _
        (("Invalid status values: " ++
            jsJoin ", " (statuses.filter (fun st => !(ALLOWED_STATUSES.contains st))) ++
            ". Allowed: ").data ++ pre) post ?_
      simp only [Err.render, data_append]
      rw [hd]
      simp [List.append_assoc]

/-- Witness for C1: `["Open"]` passes validation (the error reached under
the all-succeeding page is a checkbox-not-found error, not a validation
error), while `["Open", "Blocked"]` raises the validation error naming
`Blocked` and the whitelist before any page interaction. -/
theorem C1_witness :
    Err.isValidationError (.statusCheckboxNotFound "Open") = false ∧
    FiltersPage.selectStatusFilters ["Open", "Blocked"] okEnv () =
      ⟨.error (.invalidStatusValues ["Blocked"] ALLOWED_STATUSES), (), [], false⟩ ∧
    mentions (Err.render (.invalidStatusValues ["Blocked"] ALLOWED_STATUSES)) "Blocked" = true := by
  have h1 := C1_selectStatusFilters okEnv () ["Open"]
  have h2 := C1_selectStatusFilters okEnv () ["Open", "Blocked"]
  refine ⟨h1.1 (by decide) (by decide) _ rfl, ?_, ?_⟩
  · exact (h2.2 "Blocked" (by decide) (by decide)).1
  · exact ((h2.2 "Blocked" (by decide) (by decide)).2.1 "Blocked" (by decide) (by decide)).2

/-- C2: whenever any of the three required configuration keys is absent or
blank, `globalSetup` fails at once with the single aggregate
missing-variables error: the page state is untouched and the trace is
empty — no browser launch and no navigation happen — and the error message
names each of the required keys (in particular every missing one). -/
theorem C2_globalSetup {σ : Type} (env : PageEnv σ) (s : σ)
    (hmiss : (falsyEnv (env.getEnvVar "JIRA_URL") || falsyEnv (env.getEnvVar "JIRA_USERNAME") ||
      falsyEnv (env.getEnvVar "JIRA_PASSWORD")) = true) :
    globalSetup env s = ⟨.error .missingEnvVars, s, [], false⟩ ∧
    (∀ k ∈ (["JIRA_URL", "JIRA_USERNAME", "JIRA_PASSWORD"] : List String),
      mentions (Err.render .missingEnvVars) k = true) := by
  constructor
  · have hp := hmiss
    simp only [Bool.or_eq_true] at hp
    simp [globalSetup, getEnvP, M.bind_eq, M.bind, hp, throwE]
  · intro k hk
    rcases List.mem_cons.mp hk with rfl | hk2
    · decide
    · rcases List.mem_cons.mp hk2 with rfl | hk3
      · decide
      · rcases List.mem_cons.mp hk3 with rfl | hk4
        · decide
        · cases hk4

/-- Configuration with only the username missing. -/
def missUserEnv : PageEnv Unit :=
  { okEnv with
    getEnvVar := fun k =>
      if k == "JIRA_URL" then some "https://jira.example.com"
      else if k == "JIRA_PASSWORD" then some "hunter2"
      else none }

/-- Witness for C2: with only `JIRA_USERNAME` missing, bootstrap fails
before any interaction and the error names `JIRA_USERNAME`. -/
theorem C2_witness :
    globalSetup missUserEnv () = ⟨.error .missingEnvVars, (), [], false⟩ ∧
    mentions (Err.render .missingEnvVars) "JIRA_USERNAME" = true := by
  have h := C2_globalSetup missUserEnv () (by decide)
  exact ⟨h.1, h.2 "JIRA_USERNAME" (by decide)⟩

/-- `true` iff the action, when it is a waiting call that accepts a timeout,
passes one referenced from the named `TIMEOUTS` table (a non-waiting action
is vacuously `true`; a waiting call with a literal or absent timeout is
`false`). -/
def usesNamedTimeout : Act → Bool
  | .waitForSelector _ (.named _) => true
  | .waitForSelector _ (.literal _) => false
  | .isVisibleQ _ none => true
  | .isVisibleQ _ (some (.named _)) => true
  | .isVisibleQ _ (some (.literal _)) => false
  | .waitForA _ (some (.named _)) => true
  | .waitForA _ _ => false
  | .waitForURL _ (.named _) => true
  | .waitForURL _ (.literal _) => false
  | _ => true

/-- A component operation that both propagates every primitive failure and
passes only named-table timeouts to its waiting calls. -/
def Clean {σ α} (m : M σ α) : Prop :=
  Propagates m ∧ TraceAll usesNamedTimeout m

theorem clean_bind {σ α β} {x : M σ α} {f : α → M σ β}
    (hx : Clean x) (hf : ∀ a, Clean (f a)) : Clean (x >>= f) :=
  ⟨propagates_bind hx.1 (fun a => (hf a).1), traceAll_bind hx.2 (fun a => (hf a).2)⟩

theorem clean_liftPrim {σ β} (act : Act) (f : PageEnv σ → σ → Except PErr β × σ)
    (hP : usesNamedTimeout act = true) : Clean (liftPrim act f) :=
  ⟨propagates_liftPrim act f, traceAll_liftPrim act f hP⟩

theorem clean_pure {σ α} (a : α) : Clean (M.pure (σ := σ) a) :=
  ⟨propagates_pure a, traceAll_pure _ a⟩

theorem clean_throwE {σ α} (e : Err) : Clean (throwE (σ := σ) (α := α) e) :=
  ⟨propagates_throwE e, traceAll_throwE _ e⟩

theorem clean_ite {σ α} (c : Prop) [Decidable c] {x y : M σ α}
    (hx : Clean x) (hy : Clean y) : Clean (if c then x else y) := by
  by_cases h : c <;> simp [h, hx, hy]

theorem clean_warnP {σ} (msg : String) : Clean (warnP (σ := σ) msg) :=
  ⟨propagates_warnP msg, traceAll_warnP msg rfl⟩

theorem clean_clickP {σ} (loc : String) : Clean (clickP (σ := σ) loc) :=
  clean_liftPrim _ _ rfl

theorem clean_waitNamed {σ} (loc : String) (n : TimeoutName) :
    Clean (waitForSelectorP (σ := σ) loc (.named n)) :=
  clean_liftPrim _ _ rfl

theorem clean_pressP {σ} (key : String) : Clean (pressP (σ := σ) key) :=
  clean_liftPrim _ _ rfl

theorem clean_countP {σ} (loc : String) : Clean (countP (σ := σ) loc) :=
  clean_liftPrim _ _ rfl

theorem clean_nthInnerTextP {σ} (loc : String) (i : Int) :
    Clean (nthInnerTextP (σ := σ) loc i) :=
  clean_liftPrim _ _ rfl

theorem clean_innerTextP {σ} (loc : String) : Clean (innerTextP (σ := σ) loc) :=
  clean_liftPrim _ _ rfl

theorem clean_isVisibleNone {σ} (loc : String) : Clean (isVisibleP (σ := σ) loc none) :=
  clean_liftPrim _ _ rfl

theorem clean_isEnabledP {σ} (loc : String) : Clean (isEnabledP (σ := σ) loc) :=
  clean_liftPrim _ _ rfl

theorem clean_isCheckedP {σ} (loc : String) : Clean (isCheckedP (σ := σ) loc) :=
  clean_liftPrim _ _ rfl

theorem clean_checkP {σ} (loc : String) : Clean (checkP (σ := σ) loc) :=
  clean_liftPrim _ _ rfl

theorem clean_uncheckP {σ} (loc : String) : Clean (uncheckP (σ := σ) loc) :=
  clean_liftPrim _ _ rfl

theorem clean_fillP {σ} (loc value : String) : Clean (fillP (σ := σ) loc value) :=
  clean_liftPrim _ _ rfl

theorem clean_inputValueP {σ} (loc : String) : Clean (inputValueP (σ := σ) loc) :=
  clean_liftPrim _ _ rfl

theorem clean_getAttributeP {σ} (loc attr : String) :
    Clean (getAttributeP (σ := σ) loc attr) :=
  clean_liftPrim _ _ rfl

theorem clean_allTextContentsP {σ} (loc : String) :
    Clean (allTextContentsP (σ := σ) loc) :=
  clean_liftPrim _ _ rfl

theorem clean_typeP {σ} (loc value : String) : Clean (typeP (σ := σ) loc value) :=
  clean_liftPrim _ _ rfl

theorem clean_focusP {σ} (loc : String) : Clean (focusP (σ := σ) loc) :=
  clean_liftPrim _ _ rfl

theorem clean_blurP {σ} (loc : String) : Clean (blurP (σ := σ) loc) :=
  clean_liftPrim _ _ rfl

theorem clean_dd_open {σ} (d : DropdownComponent) : Clean (d.open (σ := σ)) := by
  unfold DropdownComponent.open
  exact clean_bind (clean_clickP _) (fun _ => clean_waitNamed _ _)

theorem clean_dd_close {σ} (d : DropdownComponent) : Clean (d.close (σ := σ)) := by
  unfold DropdownComponent.close
  exact clean_pressP _

theorem clean_dd_selectOption {σ} (d : DropdownComponent) (t : String) :
    Clean (d.selectOption (σ := σ) t) := by
  unfold DropdownComponent.selectOption
  refine clean_bind (clean_dd_open d) (fun _ => ?_)
  refine clean_bind (clean_countP _) (fun count => ?_)
  exact clean_ite _ (clean_throwE _) (clean_clickP _)

theorem clean_dd_selectOptionByValue {σ} (d : DropdownComponent) (v : String) :
    Clean (d.selectOptionByValue (σ := σ) v) := by
  unfold DropdownComponent.selectOptionByValue
  refine clean_bind (clean_dd_open d) (fun _ => ?_)
  refine clean_bind (clean_countP _) (fun count => ?_)
  exact clean_ite _ (clean_throwE _) (clean_clickP _)

theorem clean_dd_optionExists {σ} (d : DropdownComponent) (t : String) :
    Clean (d.optionExists (σ := σ) t) := by
  unfold DropdownComponent.optionExists
  refine clean_bind (clean_dd_open d) (fun _ => ?_)
  refine clean_bind (clean_countP _) (fun count => ?_)
  exact clean_bind (clean_dd_close d) (fun _ => clean_pure _)

theorem clean_dd_getAllOptions {σ} (d : DropdownComponent) :
    Clean (d.getAllOptions (σ := σ)) := by
  unfold DropdownComponent.getAllOptions
  refine clean_bind (clean_dd_open d) (fun _ => ?_)
  refine clean_bind (clean_allTextContentsP _) (fun options => ?_)
  exact clean_bind (clean_dd_close d) (fun _ => clean_pure _)

theorem clean_dd_getOptionCount {σ} (d : DropdownComponent) :
    Clean (d.getOptionCount (σ := σ)) := by
  unfold DropdownComponent.getOptionCount
  refine clean_bind (clean_dd_open d) (fun _ => ?_)
  refine clean_bind (clean_countP _) (fun count => ?_)
  exact clean_bind (clean_dd_close d) (fun _ => clean_pure _)

theorem clean_tbl_getRowCount {σ} (t : TableComponent) : Clean (t.getRowCount (σ := σ)) := by
  unfold TableComponent.getRowCount
  exact clean_countP _

theorem clean_tbl_getRowText {σ} (t : TableComponent) (i : Int) :
    Clean (t.getRowText (σ := σ) i) := by
  unfold TableComponent.getRowText
  refine clean_bind (clean_tbl_getRowCount t) (fun count => ?_)
  exact clean_ite _ (clean_throwE _) (clean_nthInnerTextP _ _)

theorem clean_tbl_getAllRowTextsLoop {σ} (t : TableComponent) :
    ∀ n i : Nat, Clean (t.getAllRowTextsLoop (σ := σ) n i) := by
  intro n
  induction n with
  | zero => intro i; exact clean_pure _
  | succ m ih =>
      intro i
      unfold TableComponent.getAllRowTextsLoop
      refine clean_bind (clean_tbl_getRowText t _) (fun x => ?_)
      exact clean_bind (ih (i + 1)) (fun rest => clean_pure _)

theorem clean_tbl_getAllRowTexts {σ} (t : TableComponent) :
    Clean (t.getAllRowTexts (σ := σ)) := by
  unfold TableComponent.getAllRowTexts
  exact clean_bind (clean_tbl_getRowCount t) (fun count => clean_tbl_getAllRowTextsLoop t _ _)

theorem clean_tbl_validateLoop {σ} (t : TableComponent) (expected : List String) :
    ∀ n i : Nat, Clean (t.validateLoop (σ := σ) expected n i) := by
  intro n
  induction n with
  | zero => intro i; exact clean_pure _
  | succ m ih =>
      intro i
      unfold TableComponent.validateLoop
      refine clean_bind (clean_tbl_getRowText t _) (fun cellText => ?_)
      exact clean_ite _ (ih (i + 1)) (clean_throwE _)

theorem clean_tbl_validateAll {σ} (t : TableComponent) (expected : List String) :
    Clean (t.validateAllCellsContainExpectedValues (σ := σ) expected) := by
  unfold TableComponent.validateAllCellsContainExpectedValues
  refine clean_bind (clean_tbl_getRowCount t) (fun count => ?_)
  exact clean_ite _ (clean_warnP _) (clean_tbl_validateLoop t expected _ _)

theorem clean_tbl_isEmpty {σ} (t : TableComponent) : Clean (t.isEmpty (σ := σ)) := by
  unfold TableComponent.isEmpty
  exact clean_bind (clean_tbl_getRowCount t) (fun count => clean_pure _)

theorem clean_tbl_findRowByText {σ} (t : TableComponent) (x : String) :
    Clean (t.findRowByText (σ := σ) x) := by
  unfold TableComponent.findRowByText
  exact clean_bind (clean_tbl_getAllRowTexts t) (fun texts => clean_pure _)

theorem clean_tbl_valueExists {σ} (t : TableComponent) (x : String) :
    Clean (t.valueExists (σ := σ) x) := by
  unfold TableComponent.valueExists
  exact clean_bind (clean_tbl_getAllRowTexts t) (fun texts => clean_pure _)

theorem clean_tbl_getFirstRowText {σ} (t : TableComponent) :
    Clean (t.getFirstRowText (σ := σ)) := by
  unfold TableComponent.getFirstRowText
  refine clean_bind (clean_tbl_getRowCount t) (fun count => ?_)
  exact clean_ite _ (clean_throwE _) (clean_tbl_getRowText t _)

theorem clean_tbl_getLastRowText {σ} (t : TableComponent) :
    Clean (t.getLastRowText (σ := σ)) := by
  unfold TableComponent.getLastRowText
  refine clean_bind (clean_tbl_getRowCount t) (fun count => ?_)
  exact clean_ite _ (clean_throwE _) (clean_tbl_getRowText t _)

theorem clean_nav_click {σ} (n : NavigationComponent) : Clean (n.click (σ := σ)) := by
  unfold NavigationComponent.click
  exact clean_clickP _

theorem clean_nav_clickAndWaitForTarget {σ} (n : NavigationComponent) :
    Clean (n.clickAndWaitForTarget (σ := σ)) := by
  unfold NavigationComponent.clickAndWaitForTarget
  cases n.targetElementLocator with
  | none => exact clean_throwE _
  | some target => exact clean_bind (clean_nav_click n) (fun _ => clean_waitNamed _ _)

theorem clean_nav_exists {σ} (n : NavigationComponent) : Clean (n.exists (σ := σ)) := by
  unfold NavigationComponent.exists
  exact clean_bind (clean_countP _) (fun count => clean_pure _)

theorem clean_nav_isVisible {σ} (n : NavigationComponent) : Clean (n.isVisible (σ := σ)) := by
  unfold NavigationComponent.isVisible
  exact clean_isVisibleNone _

theorem clean_nav_isEnabled {σ} (n : NavigationComponent) : Clean (n.isEnabled (σ := σ)) := by
  unfold NavigationComponent.isEnabled
  exact clean_isEnabledP _

theorem clean_nav_getText {σ} (n : NavigationComponent) : Clean (n.getText (σ := σ)) := by
  unfold NavigationComponent.getText
  exact clean_innerTextP _

theorem prop_nav_waitForClickable {σ} (n : NavigationComponent) :
    Propagates (n.waitForClickable (σ := σ)) := by
  unfold NavigationComponent.waitForClickable
  exact propagates_liftPrim _ _

theorem clean_nav_clickWithValidation {σ} (n : NavigationComponent) :
    Clean (n.clickWithValidation (σ := σ)) := by
  unfold NavigationComponent.clickWithValidation
  refine clean_bind (clean_nav_exists n) (fun ex => ?_)
  refine clean_ite _ (clean_throwE _) ?_
  refine clean_bind (clean_nav_isVisible n) (fun vis => ?_)
  exact clean_ite _ (clean_throwE _) (clean_nav_click n)

theorem clean_nav_getClass {σ} (n : NavigationComponent) : Clean (n.getClass (σ := σ)) := by
  unfold NavigationComponent.getClass
  exact clean_getAttributeP _ _

theorem clean_nav_hasClass {σ} (n : NavigationComponent) (c : String) :
    Clean (n.hasClass (σ := σ) c) := by
  unfold NavigationComponent.hasClass
  exact clean_bind (clean_nav_getClass n) (fun classes => clean_pure _)

theorem clean_nav_isActive {σ} (n : NavigationComponent) (c : String) :
    Clean (n.isActive (σ := σ) c) := by
  unfold NavigationComponent.isActive
  exact clean_nav_hasClass n c

theorem clean_cb_check {σ} (c : CheckboxComponent) : Clean (c.check (σ := σ)) := by
  unfold CheckboxComponent.check
  exact clean_checkP _

theorem clean_cb_uncheck {σ} (c : CheckboxComponent) : Clean (c.uncheck (σ := σ)) := by
  unfold CheckboxComponent.uncheck
  exact clean_uncheckP _

theorem clean_cb_isChecked {σ} (c : CheckboxComponent) : Clean (c.isChecked (σ := σ)) := by
  unfold CheckboxComponent.isChecked
  exact clean_isCheckedP _

theorem clean_cb_toggle {σ} (c : CheckboxComponent) : Clean (c.toggle (σ := σ)) := by
  unfold CheckboxComponent.toggle
  refine clean_bind (clean_cb_isChecked c) (fun ch => ?_)
  exact clean_ite _ (clean_cb_uncheck c) (clean_cb_check c)

theorem clean_cb_exists {σ} (c : CheckboxComponent) : Clean (c.exists (σ := σ)) := by
  unfold CheckboxComponent.exists
  exact clean_bind (clean_countP _) (fun count => clean_pure _)

theorem clean_cb_isVisible {σ} (c : CheckboxComponent) : Clean (c.isVisible (σ := σ)) := by
  unfold CheckboxComponent.isVisible
  exact clean_isVisibleNone _

theorem clean_cb_isEnabled {σ} (c : CheckboxComponent) : Clean (c.isEnabled (σ := σ)) := by
  unfold CheckboxComponent.isEnabled
  exact clean_isEnabledP _

theorem clean_cb_getValue {σ} (c : CheckboxComponent) : Clean (c.getValue (σ := σ)) := by
  unfold CheckboxComponent.getValue
  exact clean_getAttributeP _ _

theorem clean_cb_getName {σ} (c : CheckboxComponent) : Clean (c.getName (σ := σ)) := by
  unfold CheckboxComponent.getName
  exact clean_getAttributeP _ _

theorem clean_cb_validateBeforeInteraction {σ} (c : CheckboxComponent) :
    Clean (c.validateBeforeInteraction (σ := σ)) := by
  unfold CheckboxComponent.validateBeforeInteraction
  refine clean_bind (clean_cb_exists c) (fun ex => ?_)
  refine clean_ite _ (clean_throwE _) ?_
  refine clean_bind (clean_cb_isVisible c) (fun vis => ?_)
  refine clean_ite _ (clean_throwE _) ?_
  refine clean_bind (clean_cb_isEnabled c) (fun en => ?_)
  exact clean_ite _ (clean_throwE _) (clean_pure _)

theorem clean_cb_checkWithValidation {σ} (c : CheckboxComponent) :
    Clean (c.checkWithValidation (σ := σ)) := by
  unfold CheckboxComponent.checkWithValidation
  exact clean_bind (clean_cb_validateBeforeInteraction c) (fun _ => clean_cb_check c)

theorem clean_cb_uncheckWithValidation {σ} (c : CheckboxComponent) :
    Clean (c.uncheckWithValidation (σ := σ)) := by
  unfold CheckboxComponent.uncheckWithValidation
  exact clean_bind (clean_cb_validateBeforeInteraction c) (fun _ => clean_cb_uncheck c)

theorem clean_fi_fill {σ} (f : FormInputComponent) (v : String) :
    Clean (f.fill (σ := σ) v) := by
  unfold FormInputComponent.fill
  exact clean_ite _ (clean_throwE _) (clean_fillP _ _)

theorem clean_fi_getValue {σ} (f : FormInputComponent) : Clean (f.getValue (σ := σ)) := by
  unfold FormInputComponent.getValue
  exact clean_inputValueP _

theorem clean_fi_clear {σ} (f : FormInputComponent) : Clean (f.clear (σ := σ)) := by
  unfold FormInputComponent.clear
  exact clean_fillP _ _

theorem clean_fi_clearAndFill {σ} (f : FormInputComponent) (v : String) :
    Clean (f.clearAndFill (σ := σ) v) := by
  unfold FormInputComponent.clearAndFill
  exact clean_bind (clean_fi_clear f) (fun _ => clean_fi_fill f v)

theorem clean_fi_exists {σ} (f : FormInputComponent) : Clean (f.exists (σ := σ)) := by
  unfold FormInputComponent.exists
  exact clean_bind (clean_countP _) (fun count => clean_pure _)

theorem clean_fi_isVisible {σ} (f : FormInputComponent) : Clean (f.isVisible (σ := σ)) := by
  unfold FormInputComponent.isVisible
  exact clean_isVisibleNone _

theorem clean_fi_isEnabled {σ} (f : FormInputComponent) : Clean (f.isEnabled (σ := σ)) := by
  unfold FormInputComponent.isEnabled
  exact clean_isEnabledP _

theorem clean_fi_getPlaceholder {σ} (f : FormInputComponent) :
    Clean (f.getPlaceholder (σ := σ)) := by
  unfold FormInputComponent.getPlaceholder
  exact clean_getAttributeP _ _

theorem clean_fi_typeText {σ} (f : FormInputComponent) (v : String) :
    Clean (f.typeText (σ := σ) v) := by
  unfold FormInputComponent.typeText
  exact clean_typeP _ _

theorem clean_fi_focus {σ} (f : FormInputComponent) : Clean (f.focus (σ := σ)) := by
  unfold FormInputComponent.focus
  exact clean_focusP _

theorem clean_fi_blur {σ} (f : FormInputComponent) : Clean (f.blur (σ := σ)) := by
  unfold FormInputComponent.blur
  exact clean_blurP _

theorem clean_ti_getValue {σ} (t : TextInputComponent) : Clean (t.getValue (σ := σ)) := by
  unfold TextInputComponent.getValue
  exact clean_inputValueP _

theorem clean_ti_containsValue {σ} (t : TextInputComponent) (v : String) :
    Clean (t.containsValue (σ := σ) v) := by
  unfold TextInputComponent.containsValue
  exact clean_bind (clean_ti_getValue t) (fun value => clean_pure _)

theorem clean_ti_equalsValue {σ} (t : TextInputComponent) (v : String) :
    Clean (t.equalsValue (σ := σ) v) := by
  unfold TextInputComponent.equalsValue
  exact clean_bind (clean_ti_getValue t) (fun value => clean_pure _)

theorem clean_ti_getTextContent {σ} (t : TextInputComponent) :
    Clean (t.getTextContent (σ := σ)) := by
  unfold TextInputComponent.getTextContent
  exact clean_innerTextP _

theorem clean_ti_isEmpty {σ} (t : TextInputComponent) : Clean (t.isEmpty (σ := σ)) := by
  unfold TextInputComponent.isEmpty
  exact clean_bind (clean_ti_getValue t) (fun value => clean_pure _)

theorem clean_ti_getValueLength {σ} (t : TextInputComponent) :
    Clean (t.getValueLength (σ := σ)) := by
  unfold TextInputComponent.getValueLength
  exact clean_bind (clean_ti_getValue t) (fun value => clean_pure _)

theorem clean_ti_startsWithValue {σ} (t : TextInputComponent) (p : String) :
    Clean (t.startsWithValue (σ := σ) p) := by
  unfold TextInputComponent.startsWithValue
  exact clean_bind (clean_ti_getValue t) (fun value => clean_pure _)

theorem clean_ti_endsWithValue {σ} (t : TextInputComponent) (p : String) :
    Clean (t.endsWithValue (σ := σ) p) := by
  unfold TextInputComponent.endsWithValue
  exact clean_bind (clean_ti_getValue t) (fun value => clean_pure _)

theorem clean_ti_getType {σ} (t : TextInputComponent) : Clean (t.getType (σ := σ)) := by
  unfold TextInputComponent.getType
  exact clean_getAttributeP _ _

theorem clean_ti_exists {σ} (t : TextInputComponent) : Clean (t.exists (σ := σ)) := by
  unfold TextInputComponent.exists
  exact clean_bind (clean_countP _) (fun count => clean_pure _)

theorem clean_ti_isVisible {σ} (t : TextInputComponent) : Clean (t.isVisible (σ := σ)) := by
  unfold TextInputComponent.isVisible
  exact clean_isVisibleNone _

theorem clean_ti_isEnabled {σ} (t : TextInputComponent) : Clean (t.isEnabled (σ := σ)) := by
  unfold TextInputComponent.isEnabled
  exact clean_isEnabledP _

theorem clean_ti_isReadOnly {σ} (t : TextInputComponent) : Clean (t.isReadOnly (σ := σ)) := by
  unfold TextInputComponent.isReadOnly
  exact clean_bind (clean_getAttributeP _ _) (fun attr => clean_pure _)

theorem clean_ti_getPlaceholder {σ} (t : TextInputComponent) :
    Clean (t.getPlaceholder (σ := σ)) := by
  unfold TextInputComponent.getPlaceholder
  exact clean_getAttributeP _ _

theorem clean_ti_matchesPattern {σ} (t : TextInputComponent) (p : String → Bool) :
    Clean (t.matchesPattern (σ := σ) p) := by
  unfold TextInputComponent.matchesPattern
  exact clean_bind (clean_ti_getValue t) (fun value => clean_pure _)

/-- `Dropdown.isOpen` always returns a boolean — it never ends in an error —
and its only primitive call is the probe wait with the literal 1000 ms
timeout. -/
theorem isOpen_run {σ : Type} (d : DropdownComponent) (env : PageEnv σ) (s : σ) :
    (∃ b, (d.isOpen env s).res = .ok b) ∧
    (d.isOpen env s).trace = [.waitForSelector d.optionsLocator (.literal 1000)] := by
  unfold DropdownComponent.isOpen
  simp only [M.bind_eq, M.bind, attempt, waitForSelectorP, liftPrim]
  rcases env.waitForSelector d.optionsLocator (.literal 1000) s with ⟨r, s1⟩
  cases r <;> simp [M.pure]

/-- `Navigation.isTargetVisible` with a configured target always returns a
boolean, and its only primitive call is the visibility probe with the
literal 1000 ms timeout; without a target it raises the configuration
error before any page interaction. -/
theorem isTargetVisible_run {σ : Type} (n : NavigationComponent) (env : PageEnv σ) (s : σ) :
    (∀ target, n.targetElementLocator = some target →
      (∃ b, (n.isTargetVisible env s).res = .ok b) ∧
      (n.isTargetVisible env s).trace = [.isVisibleQ target (some (.literal 1000))]) ∧
    (n.targetElementLocator = none →
      n.isTargetVisible env s = ⟨.error .targetNotSet, s, [], false⟩) := by
  constructor
  · intro target htarget
    unfold NavigationComponent.isTargetVisible
    rw [htarget]
    simp only [M.bind_eq, M.bind, attempt, isVisibleP, liftPrim]
    rcases env.isVisibleQ target (some (.literal 1000)) s with ⟨r, s1⟩
    cases r <;> simp [M.pure]
  · intro hnone
    unfold NavigationComponent.isTargetVisible
    rw [hnone]
    rfl

/-- Zero-row policy of the Table component: when the count primitive reads
zero, validation succeeds with only a warning. -/
theorem validate_zeroRows {σ : Type} (env : PageEnv σ) (s s1 : σ) (t : TableComponent)
    (expectedValues : List String)
    (hc : env.countQ t.cellLocator s = (.ok 0, s1)) :
    t.validateAllCellsContainExpectedValues expectedValues env s =
      ⟨.ok (), s1, [.countQ t.cellLocator, .warn "No rows found in table"], false⟩ := by
  simp [TableComponent.validateAllCellsContainExpectedValues, TableComponent.getRowCount,
    countP, liftPrim, M.bind_eq, M.bind, hc, warnP]

/-- A page whose wait / visibility primitives time out (and everything else
succeeds). -/
def badWaitEnv : PageEnv Unit :=
  { okEnv with
    waitForSelector := fun loc _ s => (.error (.timeout loc), s)
    isVisibleQ := fun loc _ s => (.error (.timeout loc), s) }

/-- A page whose click primitive fails (and everything else succeeds). -/
def badClickEnv : PageEnv Unit :=
  { okEnv with click := fun loc s => (.error (.failure loc), s) }

/-- C3, counterexample: `NavigationComponent.isTargetVisible` is a component
operation other than the Table zero-row case and `Dropdown.isOpen`, yet on
a page where its internal visibility probe fails it swallows that failure
(the failed flag is set) and returns `ok false` to its caller instead of
propagating. -/
theorem C3_counterexample :
    (badWaitEnv.isVisibleQ "#target" (some (.literal 1000)) ()).1 =
      .error (.timeout "#target") ∧
    ((NavigationComponent.mk "#nav" (some "#target")).isTargetVisible badWaitEnv ()).failed =
      true ∧
    ((NavigationComponent.mk "#nav" (some "#target")).isTargetVisible badWaitEnv ()).res =
      .ok false := ⟨rfl, rfl, rfl⟩

/-- C4, counterexample: `Dropdown.isOpen` is a component waiting operation
whose wait passes the literal constant 1000 instead of a named entry of
the `TIMEOUTS` table. -/
theorem C4_counterexample :
    ((DropdownComponent.mk "#dd" "[role=\"listbox\"]").isOpen okEnv ()).trace =
      [.waitForSelector "[role=\"listbox\"]" (.literal 1000)] ∧
    usesNamedTimeout (.waitForSelector "[role=\"listbox\"]" (.literal 1000)) = false :=
  ⟨rfl, rfl⟩

/-- C3 (amended): no core component operation swallows an internal error,
with exactly three exceptions — the zero-row case of the Table component in
`validateAllCellsContainExpectedValues`, `Dropdown.isOpen()`, and
`Navigation.isTargetVisible()`, the last two returning `false` instead of
propagating their own probe failure; every other component operation
propagates any primitive failure to its immediate caller, with no internal
retry. -/
theorem C3_amended :
    (∀ (σ : Type) (d : DropdownComponent) (text : String),
      Propagates (d.open (σ := σ)) ∧ Propagates (d.close (σ := σ)) ∧
      Propagates (d.selectOption (σ := σ) text) ∧
      Propagates (d.selectOptionByValue (σ := σ) text) ∧
      Propagates (d.optionExists (σ := σ) text) ∧
      Propagates (d.getAllOptions (σ := σ)) ∧
      Propagates (d.getOptionCount (σ := σ))) ∧
    (∀ (σ : Type) (t : TableComponent) (i : Int) (expected : List String) (x : String),
      Propagates (t.getRowCount (σ := σ)) ∧ Propagates (t.getRowText (σ := σ) i) ∧
      Propagates (t.getAllRowTexts (σ := σ)) ∧
      Propagates (t.validateAllCellsContainExpectedValues (σ := σ) expected) ∧
      Propagates (t.isEmpty (σ := σ)) ∧ Propagates (t.findRowByText (σ := σ) x) ∧
      Propagates (t.valueExists (σ := σ) x) ∧ Propagates (t.getFirstRowText (σ := σ)) ∧
      Propagates (t.getLastRowText (σ := σ))) ∧
    (∀ (σ : Type) (n : NavigationComponent) (c : String),
      Propagates (n.click (σ := σ)) ∧ Propagates (n.clickAndWaitForTarget (σ := σ)) ∧
      Propagates (n.exists (σ := σ)) ∧ Propagates (n.isVisible (σ := σ)) ∧
      Propagates (n.isEnabled (σ := σ)) ∧ Propagates (n.getText (σ := σ)) ∧
      Propagates (n.waitForClickable (σ := σ)) ∧
      Propagates (n.clickWithValidation (σ := σ)) ∧
      Propagates (n.getClass (σ := σ)) ∧ Propagates (n.hasClass (σ := σ) c) ∧
      Propagates (n.isActive (σ := σ) c)) ∧
    (∀ (σ : Type) (c : CheckboxComponent),
      Propagates (c.check (σ := σ)) ∧ Propagates (c.uncheck (σ := σ)) ∧
      Propagates (c.toggle (σ := σ)) ∧ Propagates (c.isChecked (σ := σ)) ∧
      Propagates (c.exists (σ := σ)) ∧ Propagates (c.isVisible (σ := σ)) ∧
      Propagates (c.isEnabled (σ := σ)) ∧ Propagates (c.getValue (σ := σ)) ∧
      Propagates (c.getName (σ := σ)) ∧
      Propagates (c.validateBeforeInteraction (σ := σ)) ∧
      Propagates (c.checkWithValidation (σ := σ)) ∧
      Propagates (c.uncheckWithValidation (σ := σ))) ∧
    (∀ (σ : Type) (f : FormInputComponent) (v : String),
      Propagates (f.fill (σ := σ) v) ∧ Propagates (f.getValue (σ := σ)) ∧
      Propagates (f.clear (σ := σ)) ∧ Propagates (f.clearAndFill (σ := σ) v) ∧
      Propagates (f.exists (σ := σ)) ∧ Propagates (f.isVisible (σ := σ)) ∧
      Propagates (f.isEnabled (σ := σ)) ∧ Propagates (f.getPlaceholder (σ := σ)) ∧
      Propagates (f.typeText (σ := σ) v) ∧ Propagates (f.focus (σ := σ)) ∧
      Propagates (f.blur (σ := σ))) ∧
    (∀ (σ : Type) (t : TextInputComponent) (v : String) (p : String → Bool),
      Propagates (t.getValue (σ := σ)) ∧ Propagates (t.containsValue (σ := σ) v) ∧
      Propagates (t.equalsValue (σ := σ) v) ∧ Propagates (t.getTextContent (σ := σ)) ∧
      Propagates (t.isEmpty (σ := σ)) ∧ Propagates (t.getValueLength (σ := σ)) ∧
      Propagates (t.startsWithValue (σ := σ) v) ∧
      Propagates (t.endsWithValue (σ := σ) v) ∧
      Propagates (t.getType (σ := σ)) ∧ Propagates (t.exists (σ := σ)) ∧
      Propagates (t.isVisible (σ := σ)) ∧ Propagates (t.isEnabled (σ := σ)) ∧
      Propagates (t.isReadOnly (σ := σ)) ∧ Propagates (t.getPlaceholder (σ := σ)) ∧
      Propagates (t.matchesPattern (σ := σ) p)) ∧
    (∀ (σ : Type) (env : PageEnv σ) (s : σ) (d : DropdownComponent),
      ∃ b, (d.isOpen env s).res = .ok b) ∧
    (∀ (σ : Type) (env : PageEnv σ) (s : σ) (n : NavigationComponent) (target : String),
      n.targetElementLocator = some target → ∃ b, (n.isTargetVisible env s).res = .ok b) ∧
    (((DropdownComponent.mk "#dd" "[role=\"listbox\"]").isOpen badWaitEnv ()).failed = true ∧
      ((DropdownComponent.mk "#dd" "[role=\"listbox\"]").isOpen badWaitEnv ()).res =
        .ok false) ∧
    (((NavigationComponent.mk "#nav" (some "#target")).isTargetVisible badWaitEnv ()).failed =
        true ∧
      ((NavigationComponent.mk "#nav" (some "#target")).isTargetVisible badWaitEnv ()).res =
        .ok false) ∧
    (∀ (σ : Type) (env : PageEnv σ) (s s1 : σ) (t : TableComponent)
        (expected : List String),
      env.countQ t.cellLocator s = (.ok 0, s1) →
      (t.validateAllCellsContainExpectedValues expected env s).res = .ok ()) := by
  refine ⟨?_, ?_, ?_, ?_, ?_, ?_, ?_, ?_, ⟨rfl, rfl⟩, ⟨rfl, rfl⟩, ?_⟩
  · intro σ d text
    exact ⟨(clean_dd_open d).1, (clean_dd_close d).1, (clean_dd_selectOption d text).1,
      (clean_dd_selectOptionByValue d text).1, (clean_dd_optionExists d text).1,
      (clean_dd_getAllOptions d).1, (clean_dd_getOptionCount d).1⟩
  · intro σ t i expected x
    exact ⟨(clean_tbl_getRowCount t).1, (clean_tbl_getRowText t i).1,
      (clean_tbl_getAllRowTexts t).1, (clean_tbl_validateAll t expected).1,
      (clean_tbl_isEmpty t).1, (clean_tbl_findRowByText t x).1,
      (clean_tbl_valueExists t x).1, (clean_tbl_getFirstRowText t).1,
      (clean_tbl_getLastRowText t).1⟩
  · intro σ n c
    exact ⟨(clean_nav_click n).1, (clean_nav_clickAndWaitForTarget n).1,
      (clean_nav_exists n).1, (clean_nav_isVisible n).1, (clean_nav_isEnabled n).1,
      (clean_nav_getText n).1, prop_nav_waitForClickable n,
      (clean_nav_clickWithValidation n).1, (clean_nav_getClass n).1,
      (clean_nav_hasClass n c).1, (clean_nav_isActive n c).1⟩
  · intro σ c
    exact ⟨(clean_cb_check c).1, (clean_cb_uncheck c).1, (clean_cb_toggle c).1,
      (clean_cb_isChecked c).1, (clean_cb_exists c).1, (clean_cb_isVisible c).1,
      (clean_cb_isEnabled c).1, (clean_cb_getValue c).1, (clean_cb_getName c).1,
      (clean_cb_validateBeforeInteraction c).1, (clean_cb_checkWithValidation c).1,
      (clean_cb_uncheckWithValidation c).1⟩
  · intro σ f v
    exact ⟨(clean_fi_fill f v).1, (clean_fi_getValue f).1, (clean_fi_clear f).1,
      (clean_fi_clearAndFill f v).1, (clean_fi_exists f).1, (clean_fi_isVisible f).1,
      (clean_fi_isEnabled f).1, (clean_fi_getPlaceholder f).1, (clean_fi_typeText f v).1,
      (clean_fi_focus f).1, (clean_fi_blur f).1⟩
  · intro σ t v p
    exact ⟨(clean_ti_getValue t).1, (clean_ti_containsValue t v).1,
      (clean_ti_equalsValue t v).1, (clean_ti_getTextContent t).1, (clean_ti_isEmpty t).1,
      (clean_ti_getValueLength t).1, (clean_ti_startsWithValue t v).1,
      (clean_ti_endsWithValue t v).1, (clean_ti_getType t).1, (clean_ti_exists t).1,
      (clean_ti_isVisible t).1, (clean_ti_isEnabled t).1, (clean_ti_isReadOnly t).1,
      (clean_ti_getPlaceholder t).1, (clean_ti_matchesPattern t p).1⟩
  · intro σ env s d
    exact (isOpen_run d env s).1
  · intro σ env s n target htarget
    exact ((isTargetVisible_run n env s).1 target htarget).1
  · intro σ env s s1 t expected hc
    rw [validate_zeroRows env s s1 t expected hc]

/-- Witness for C3 (amended): on a page whose click primitive fails,
`Dropdown.open` registers the failure and propagates it as an error. -/
theorem C3_amended_witness :
    ∃ e, ((DropdownComponent.mk "#dd" "[role=\"listbox\"]").open badClickEnv ()).res =
      .error e :=
  (C3_amended.1 Unit (DropdownComponent.mk "#dd" "[role=\"listbox\"]") "").1
    badClickEnv () rfl

/-- C4 (amended): every waiting operation in every UI component passes a
timeout referenced from a named entry of the `TIMEOUTS` policy table, with
exactly three exceptions — the short probes `Dropdown.isOpen` and
`Navigation.isTargetVisible`, whose waits pass the literal constant 1000,
and `Navigation.waitForClickable`, whose wait passes no explicit timeout
at all. -/
theorem C4_amended :
    (∀ (σ : Type) (d : DropdownComponent) (text : String),
      TraceAll usesNamedTimeout (d.open (σ := σ)) ∧
      TraceAll usesNamedTimeout (d.close (σ := σ)) ∧
      TraceAll usesNamedTimeout (d.selectOption (σ := σ) text) ∧
      TraceAll usesNamedTimeout (d.selectOptionByValue (σ := σ) text) ∧
      TraceAll usesNamedTimeout (d.optionExists (σ := σ) text) ∧
      TraceAll usesNamedTimeout (d.getAllOptions (σ := σ)) ∧
      TraceAll usesNamedTimeout (d.getOptionCount (σ := σ))) ∧
    (∀ (σ : Type) (t : TableComponent) (i : Int) (expected : List String) (x : String),
      TraceAll usesNamedTimeout (t.getRowCount (σ := σ)) ∧
      TraceAll usesNamedTimeout (t.getRowText (σ := σ) i) ∧
      TraceAll usesNamedTimeout (t.getAllRowTexts (σ := σ)) ∧
      TraceAll usesNamedTimeout (t.validateAllCellsContainExpectedValues (σ := σ) expected) ∧
      TraceAll usesNamedTimeout (t.isEmpty (σ := σ)) ∧
      TraceAll usesNamedTimeout (t.findRowByText (σ := σ) x) ∧
      TraceAll usesNamedTimeout (t.valueExists (σ := σ) x) ∧
      TraceAll usesNamedTimeout (t.getFirstRowText (σ := σ)) ∧
      TraceAll usesNamedTimeout (t.getLastRowText (σ := σ))) ∧
    (∀ (σ : Type) (n : NavigationComponent) (c : String),
      TraceAll usesNamedTimeout (n.click (σ := σ)) ∧
      TraceAll usesNamedTimeout (n.clickAndWaitForTarget (σ := σ)) ∧
      TraceAll usesNamedTimeout (n.exists (σ := σ)) ∧
      TraceAll usesNamedTimeout (n.isVisible (σ := σ)) ∧
      TraceAll usesNamedTimeout (n.isEnabled (σ := σ)) ∧
      TraceAll usesNamedTimeout (n.getText (σ := σ)) ∧
      TraceAll usesNamedTimeout (n.clickWithValidation (σ := σ)) ∧
      TraceAll usesNamedTimeout (n.getClass (σ := σ)) ∧
      TraceAll usesNamedTimeout (n.hasClass (σ := σ) c) ∧
      TraceAll usesNamedTimeout (n.isActive (σ := σ) c)) ∧
    (∀ (σ : Type) (c : CheckboxComponent),
      TraceAll usesNamedTimeout (c.check (σ := σ)) ∧
      TraceAll usesNamedTimeout (c.uncheck (σ := σ)) ∧
      TraceAll usesNamedTimeout (c.toggle (σ := σ)) ∧
      TraceAll usesNamedTimeout (c.isChecked (σ := σ)) ∧
      TraceAll usesNamedTimeout (c.exists (σ := σ)) ∧
      TraceAll usesNamedTimeout (c.isVisible (σ := σ)) ∧
      TraceAll usesNamedTimeout (c.isEnabled (σ := σ)) ∧
      TraceAll usesNamedTimeout (c.getValue (σ := σ)) ∧
      TraceAll usesNamedTimeout (c.getName (σ := σ)) ∧
      TraceAll usesNamedTimeout (c.validateBeforeInteraction (σ := σ)) ∧
      TraceAll usesNamedTimeout (c.checkWithValidation (σ := σ)) ∧
      TraceAll usesNamedTimeout (c.uncheckWithValidation (σ := σ))) ∧
    (∀ (σ : Type) (f : FormInputComponent) (v : String),
      TraceAll usesNamedTimeout (f.fill (σ := σ) v) ∧
      TraceAll usesNamedTimeout (f.getValue (σ := σ)) ∧
      TraceAll usesNamedTimeout (f.clear (σ := σ)) ∧
      TraceAll usesNamedTimeout (f.clearAndFill (σ := σ) v) ∧
      TraceAll usesNamedTimeout (f.exists (σ := σ)) ∧
      TraceAll usesNamedTimeout (f.isVisible (σ := σ)) ∧
      TraceAll usesNamedTimeout (f.isEnabled (σ := σ)) ∧
      TraceAll usesNamedTimeout (f.getPlaceholder (σ := σ)) ∧
      TraceAll usesNamedTimeout (f.typeText (σ := σ) v) ∧
      TraceAll usesNamedTimeout (f.focus (σ := σ)) ∧
      TraceAll usesNamedTimeout (f.blur (σ := σ))) ∧
    (∀ (σ : Type) (t : TextInputComponent) (v : String) (p : String → Bool),
      TraceAll usesNamedTimeout (t.getValue (σ := σ)) ∧
      TraceAll usesNamedTimeout (t.containsValue (σ := σ) v) ∧
      TraceAll usesNamedTimeout (t.equalsValue (σ := σ) v) ∧
      TraceAll usesNamedTimeout (t.getTextContent (σ := σ)) ∧
      TraceAll usesNamedTimeout (t.isEmpty (σ := σ)) ∧
      TraceAll usesNamedTimeout (t.getValueLength (σ := σ)) ∧
      TraceAll usesNamedTimeout (t.startsWithValue (σ := σ) v) ∧
      TraceAll usesNamedTimeout (t.endsWithValue (σ := σ) v) ∧
      TraceAll usesNamedTimeout (t.getType (σ := σ)) ∧
      TraceAll usesNamedTimeout (t.exists (σ := σ)) ∧
      TraceAll usesNamedTimeout (t.isVisible (σ := σ)) ∧
      TraceAll usesNamedTimeout (t.isEnabled (σ := σ)) ∧
      TraceAll usesNamedTimeout (t.isReadOnly (σ := σ)) ∧
      TraceAll usesNamedTimeout (t.getPlaceholder (σ := σ)) ∧
      TraceAll usesNamedTimeout (t.matchesPattern (σ := σ) p)) ∧
    (∀ (σ : Type) (env : PageEnv σ) (s : σ) (d : DropdownComponent),
      (d.isOpen env s).trace = [.waitForSelector d.optionsLocator (.literal 1000)]) ∧
    (∀ (σ : Type) (env : PageEnv σ) (s : σ) (n : NavigationComponent) (target : String),
      n.targetElementLocator = some target →
      (n.isTargetVisible env s).trace = [.isVisibleQ target (some (.literal 1000))]) ∧
    (∀ (σ : Type) (env : PageEnv σ) (s : σ) (n : NavigationComponent),
      (n.waitForClickable env s).trace = [.waitForA n.elementLocator none]) ∧
    (∀ loc, usesNamedTimeout (.waitForSelector loc (.literal 1000)) = false) ∧
    (∀ loc, usesNamedTimeout (.isVisibleQ loc (some (.literal 1000))) = false) ∧
    (∀ loc, usesNamedTimeout (.waitForA loc none) = false) := by
  refine ⟨?_, ?_, ?_, ?_, ?_, ?_, ?_, ?_, ?_, fun _ => rfl, fun _ => rfl, fun _ => rfl⟩
  · intro σ d text
    exact ⟨(clean_dd_open d).2, (clean_dd_close d).2, (clean_dd_selectOption d text).2,
      (clean_dd_selectOptionByValue d text).2, (clean_dd_optionExists d text).2,
      (clean_dd_getAllOptions d).2, (clean_dd_getOptionCount d).2⟩
  · intro σ t i expected x
    exact ⟨(clean_tbl_getRowCount t).2, (clean_tbl_getRowText t i).2,
      (clean_tbl_getAllRowTexts t).2, (clean_tbl_validateAll t expected).2,
      (clean_tbl_isEmpty t).2, (clean_tbl_findRowByText t x).2,
      (clean_tbl_valueExists t x).2, (clean_tbl_getFirstRowText t).2,
      (clean_tbl_getLastRowText t).2⟩
  · intro σ n c
    exact ⟨(clean_nav_click n).2, (clean_nav_clickAndWaitForTarget n).2,
      (clean_nav_exists n).2, (clean_nav_isVisible n).2, (clean_nav_isEnabled n).2,
      (clean_nav_getText n).2, (clean_nav_clickWithValidation n).2,
      (clean_nav_getClass n).2, (clean_nav_hasClass n c).2, (clean_nav_isActive n c).2⟩
  · intro σ c
    exact ⟨(clean_cb_check c).2, (clean_cb_uncheck c).2, (clean_cb_toggle c).2,
      (clean_cb_isChecked c).2, (clean_cb_exists c).2, (clean_cb_isVisible c).2,
      (clean_cb_isEnabled c).2, (clean_cb_getValue c).2, (clean_cb_getName c).2,
      (clean_cb_validateBeforeInteraction c).2, (clean_cb_checkWithValidation c).2,
      (clean_cb_uncheckWithValidation c).2⟩
  · intro σ f v
    exact ⟨(clean_fi_fill f v).2, (clean_fi_getValue f).2, (clean_fi_clear f).2,
      (clean_fi_clearAndFill f v).2, (clean_fi_exists f).2, (clean_fi_isVisible f).2,
      (clean_fi_isEnabled f).2, (clean_fi_getPlaceholder f).2, (clean_fi_typeText f v).2,
      (clean_fi_focus f).2, (clean_fi_blur f).2⟩
  · intro σ t v p
    exact ⟨(clean_ti_getValue t).2, (clean_ti_containsValue t v).2,
      (clean_ti_equalsValue t v).2, (clean_ti_getTextContent t).2, (clean_ti_isEmpty t).2,
      (clean_ti_getValueLength t).2, (clean_ti_startsWithValue t v).2,
      (clean_ti_endsWithValue t v).2, (clean_ti_getType t).2, (clean_ti_exists t).2,
      (clean_ti_isVisible t).2, (clean_ti_isEnabled t).2, (clean_ti_isReadOnly t).2,
      (clean_ti_getPlaceholder t).2, (clean_ti_matchesPattern t p).2⟩
  · intro σ env s d
    exact (isOpen_run d env s).2
  · intro σ env s n target htarget
    exact ((isTargetVisible_run n env s).1 target htarget).2
  · intro σ env s n
    unfold NavigationComponent.waitForClickable waitForP
    exact liftPrim_trace _ _ env s

/-- Witness for C4 (amended): the wait emitted by `Dropdown.open` on a live
page uses the named `DROPDOWN_OPEN` entry. -/
theorem C4_amended_witness :
    usesNamedTimeout (.waitForSelector "[role=\"listbox\"]" (.named .DROPDOWN_OPEN)) = true :=
  (C4_amended.1 Unit (DropdownComponent.mk "#dd" "[role=\"listbox\"]") "").1 okEnv ()
    (.waitForSelector "[role=\"listbox\"]" (.named .DROPDOWN_OPEN)) (by decide)
